import Mathlib

/-!
# Frame lifecycle of the triangle sample (libpg/src/triangle.cpp)

A shallow embedding of the Vulkan build (USE_OPENGL_BACKEND = 0) of
triangle.cpp.  The file-scope globals of the C++ translation unit become the
fields of `PG.State`; every function of the translation unit becomes a function
on that state.  Calls that leave the translation unit (GLFW, the IGL device,
the command encoder) are recorded, in program order, in `State.trace`.

Conventions.
* A shared pointer is an `Option`; dereferencing `none` is undefined behaviour
  in C++ and is reported as `Fault.undefined`.
* `IGL_ASSERT` failure is reported as `Fault.assertFailed`.
* A faulting operation returns the state reached at the fault, so the calls
  made before it stay visible.
* `int` values are `Int`; a cast to `uint32_t` is `u32`.
* `igl::Size` and `igl::Viewport` carry floats in IGL; here a field holds the
  integer that is handed to the float conversion.  Where the code compares
  float values (line 341) the conversion is applied: `toFloat` rounds an
  integer to the nearest single-precision value, ties to even, and names that
  value by the integer it equals.
* The objects of the IGL library are not part of this translation unit.  The
  factories for which the spec names no failure (framebuffer, command queue,
  command buffer, render encoder, platform device) are taken to return an
  object; the outcomes the spec names as failures (window, context, GPU list,
  device, shader compilation, drawable acquisition) are inputs.
-/

namespace PG

/-! ## Data model -/

/-- Cast of an `int` to `uint32_t`. -/
def u32 (x : Int) : Int := x % 4294967296

/-- Number of low-order bits a natural number loses when it is rounded to the
24-bit significand of a single-precision float; the first argument bounds the
search and 128 covers every finite float. -/
def dropBits : Nat → Nat → Nat
  | 0, _ => 0
  | fuel + 1, n => if n < 16777216 then 0 else dropBits fuel (n / 2) + 1

/-- Conversion of a natural number to `float`: the nearest value with a 24-bit
significand, ties to even.  The result is an integer again. -/
def roundF32 (n : Nat) : Nat :=
  let e := dropBits 128 n
  let q := n / 2 ^ e
  let r := n % 2 ^ e
  if 2 * r < 2 ^ e then q * 2 ^ e
  else if 2 * r = 2 ^ e ∧ q % 2 = 0 then q * 2 ^ e
  else (q + 1) * 2 ^ e

/-- Conversion of an `int` or `uint32_t` to `float`, as a static cast or the
usual arithmetic conversion performs it. -/
def toFloat (x : Int) : Int :=
  if 0 ≤ x then (roundF32 x.toNat : Int) else -(roundF32 (-x).toNat : Int)

/-- The value of `igl::Size`, as returned by `ITexture::getSize`. -/
structure Size where
  width : Int
  height : Int
deriving DecidableEq, Repr

/-- Modelled from the spec: an `igl::ITexture` object (the drawable), which the
IGL library declares; the spec gives it a width and a height, the code also
reads its format.  `handle` is the identity of the object. -/
structure Texture where
  handle : Nat
  width : Nat
  height : Nat
  format : Nat
deriving DecidableEq, Repr

/-- The call `ITexture::getSize()`. -/
def Texture.getSize (t : Texture) : Size := ⟨t.width, t.height⟩

/-- Modelled from the spec: an `igl::IFramebuffer` object, declared by the IGL
library: a GPU object binding a color attachment and optionally a depth
attachment.  `handle` is the identity of the object. -/
structure Framebuffer where
  handle : Nat
  colorAttachment0 : Option Texture
  depthAttachment : Option Texture
deriving DecidableEq, Repr

/-- Modelled from the spec: `IFramebuffer::updateDrawable`, which rebinds the
color attachment 0 of the same framebuffer object to the given drawable. -/
def Framebuffer.updateDrawable (fb : Framebuffer) (t : Texture) : Framebuffer :=
  { fb with colorAttachment0 := some t }

/-- The enumeration `HWDeviceType`, as far as the code names it. -/
inductive HWDeviceType where
  | DiscreteGpu
  | IntegratedGpu
deriving DecidableEq, Repr

/-- One entry of the vector returned by `HWDevice::queryDevices`. -/
structure HWDeviceDesc where
  guid : Nat
  type : HWDeviceType
deriving DecidableEq, Repr

/-- The device object behind `device_`: the GPU it was created from, the size
it was created with, and whether its shader compiler accepts the two fixed
shader sources. -/
structure Device where
  desc : HWDeviceDesc
  width : Int
  height : Int
  compilesShaders : Bool
deriving DecidableEq, Repr

/-- The object behind `commandQueue_`. -/
structure CommandQueue where
  handle : Nat
deriving DecidableEq, Repr

/-- The object behind `renderPipelineState_Triangle_`, with the target formats
its descriptor was filled with. -/
structure RenderPipelineState where
  handle : Nat
  colorFormat : Option Nat
  depthFormat : Option Nat
deriving DecidableEq, Repr

inductive LoadAction where
  | DontCare
  | Load
  | Clear
deriving DecidableEq, Repr

inductive StoreAction where
  | DontCare
  | Store
deriving DecidableEq, Repr

/-- The value `RenderPassDesc::ColorAttachmentDesc`; the default constructed
value has both actions `DontCare` and a zero clear color. -/
structure ColorAttachmentDesc where
  loadAction : LoadAction
  storeAction : StoreAction
  clearColor : Int × Int × Int × Int
deriving DecidableEq, Repr

/-- The value `RenderPassDesc`. -/
structure RenderPassDesc where
  colorAttachments : List ColorAttachmentDesc
  depthLoadAction : LoadAction
deriving DecidableEq, Repr

/-- The value `igl::Viewport` (x, y, width, height, minDepth, maxDepth). -/
structure Viewport where
  x : Int
  y : Int
  width : Int
  height : Int
  minDepth : Int
  maxDepth : Int
deriving DecidableEq, Repr

/-- The value `igl::ScissorRect` (x, y, width, height), all `uint32_t`. -/
structure ScissorRect where
  x : Int
  y : Int
  width : Int
  height : Int
deriving DecidableEq, Repr

inductive PrimitiveType where
  | Point
  | Line
  | Triangle
deriving DecidableEq, Repr

/-- The GLFW window behind `window_`, reduced to its close flag. -/
structure Window where
  shouldClose : Bool
deriving DecidableEq, Repr

/-- The objects `runTriangle` lets go of at shutdown. -/
inductive Resource where
  | pipeline
  | framebuffer
  | commandQueue
  | device
deriving DecidableEq, Repr

/-- One call that leaves the translation unit. -/
inductive Call where
  | glfwInit
  | glfwCreateWindow (w h : Int)
  | glfwTerminate
  | glfwGetWindowSize
  | glfwPollEvents
  | glfwDestroyWindow
  | createContext (hasWindow : Bool)
  | queryDevices (t : HWDeviceType)
  | hwDeviceCreate (d : HWDeviceDesc) (w h : Int)
  | createCommandQueue
  | initSwapchain (w h : Int)
  | createTextureFromNativeDrawable
  | createFramebuffer (handle : Nat) (drawable : Texture)
  | updateDrawable (handle : Nat) (drawable : Texture)
  | fromModuleStringInput
  | createRenderPipeline (colorFormat depthFormat : Option Nat)
  | createCommandBuffer
  | createRenderCommandEncoder (rp : RenderPassDesc) (fb : Option Framebuffer)
  | bindRenderPipelineState (p : Option RenderPipelineState)
  | bindViewport (v : Viewport)
  | bindScissorRect (r : ScissorRect)
  | pushDebugGroupLabel
  | draw (p : PrimitiveType) (vertexStart vertexCount : Nat)
  | popDebugGroupLabel
  | endEncoding
  | present (drawable : Texture)
  | submit
  | reset (r : Resource)
deriving DecidableEq, Repr

/-- The file-scope variables of triangle.cpp, with the call record and the
counter from which fresh object identities are drawn. -/
structure State where
  window_ : Option Window
  width_ : Int
  height_ : Int
  device_ : Option Device
  commandQueue_ : Option CommandQueue
  renderPass_ : RenderPassDesc
  framebuffer_ : Option Framebuffer
  renderPipelineState_Triangle_ : Option RenderPipelineState
  nextHandle : Nat
  trace : List Call
deriving DecidableEq, Repr

/-- The two kinds of undefined behaviour the code can reach. -/
inductive Undefined where
  | nullDereference
  | vectorIndexOutOfRange
deriving DecidableEq, Repr

/-- Why an operation did not run to its end. -/
inductive Fault where
  | undefined (u : Undefined)
  | assertFailed
  | outOfInput
deriving DecidableEq, Repr

/-- Result of an operation: the state after it, or a fault with the state
reached at the fault. -/
abbrev Outcome (α : Type) := Except (Fault × State) α

/-- Record one outgoing call. -/
def State.log (s : State) (c : Call) : State :=
  { s with trace := s.trace ++ [c] }

/-- The state at program start: every global zero or null. -/
def State.initial : State :=
  { window_ := none, width_ := 0, height_ := 0, device_ := none,
    commandQueue_ := none,
    renderPass_ := { colorAttachments := [], depthLoadAction := LoadAction.DontCare },
    framebuffer_ := none, renderPipelineState_Triangle_ := none,
    nextHandle := 0, trace := [] }

/-! ## What the environment supplies -/

/-- The answers of GLFW and of the Vulkan back end during start-up. -/
structure StartupEnv where
  glfwInitOk : Bool
  windowCreated : Bool
  windowSize : Int × Int
  contextCreated : Bool
  discreteGpus : List HWDeviceDesc
  integratedGpus : List HWDeviceDesc
  deviceCreated : Bool
  compilesShaders : Bool
  firstDrawable : Option Texture
deriving DecidableEq, Repr

/-- An event delivered by `glfwPollEvents`. -/
inductive WindowEvent where
  | size (width height : Int)
  | key (key action : Int)
  | close
deriving DecidableEq, Repr

/-- What one pass of the main loop receives: the drawable the platform device
hands out (`none` when acquisition fails) and the events pending at the poll. -/
structure FrameInput where
  drawable : Option Texture
  events : List WindowEvent
deriving DecidableEq, Repr

def GLFW_KEY_ESCAPE : Int := 256

def GLFW_PRESS : Int := 1

/-! ## The functions of triangle.cpp -/

/-- The lambda given to `glfwSetKeyCallback` (lines 175-179). -/
def keyCallback (s : State) (key action : Int) : State :=
  if key = GLFW_KEY_ESCAPE ∧ action = GLFW_PRESS then
    { s with window_ := s.window_.map (fun _ => ({ shouldClose := true } : Window)) }
  else s

/-- The lambda given to `glfwSetWindowSizeCallback` (lines 182-191). -/
def windowSizeCallback (s : State) (width height : Int) : Outcome State :=
  let s1 : State := { s with width_ := width, height_ := height }
  match s1.device_ with
  | none => .error (Fault.undefined Undefined.nullDereference, s1)
  | some _ => .ok (s1.log (Call.initSwapchain (u32 s1.width_) (u32 s1.height_)))

/-- The function `initWindow` (lines 144-200); the Boolean is its return
value. -/
def initWindow (env : StartupEnv) (s : State) : Bool × State :=
  let s1 := s.log Call.glfwInit
  if env.glfwInitOk = false then (false, s1)
  else
    let s2 := s1.log (Call.glfwCreateWindow 800 600)
    if env.windowCreated = false then (false, s2.log Call.glfwTerminate)
    else
      let s3 := s2.log Call.glfwGetWindowSize
      let s4 : State := { s3 with width_ := env.windowSize.1, height_ := env.windowSize.2 }
      (true, { s4 with window_ := some { shouldClose := false } })

/-- The render pass set up at the end of `initIGL` (lines 261-265), for a
color attachment vector that has an entry 0; `initIGL` tests that first. -/
def setupRenderPass (rp : RenderPassDesc) : RenderPassDesc :=
  { colorAttachments :=
      rp.colorAttachments.set 0
        { loadAction := LoadAction.Clear, storeAction := StoreAction.Store,
          clearColor := (1, 1, 1, 1) },
    depthLoadAction := LoadAction.DontCare }

/-- The function `initIGL` (lines 202-266), Vulkan branch. -/
def initIGL (env : StartupEnv) (s : State) : Outcome State :=
  let s1 := s.log (Call.createContext s.window_.isSome)
  if env.contextCreated = false then
    .error (Fault.undefined Undefined.nullDereference, s1)
  else
    let s2 := s1.log (Call.queryDevices HWDeviceType.DiscreteGpu)
    let r : List HWDeviceDesc × State :=
      if env.discreteGpus.isEmpty then
        (env.integratedGpus, s2.log (Call.queryDevices HWDeviceType.IntegratedGpu))
      else (env.discreteGpus, s2)
    match r.1.head? with
    | none => .error (Fault.undefined Undefined.vectorIndexOutOfRange, r.2)
    | some d =>
      let s3 := r.2.log (Call.hwDeviceCreate d (u32 s.width_) (u32 s.height_))
      if env.deviceCreated = false then .error (Fault.assertFailed, s3)
      else
        let s4 : State :=
          { s3 with device_ := some { desc := d, width := u32 s.width_,
                                      height := u32 s.height_,
                                      compilesShaders := env.compilesShaders } }
        let s5 := s4.log Call.createCommandQueue
        let s6 : State := { s5 with commandQueue_ := some { handle := s5.nextHandle },
                                    nextHandle := s5.nextHandle + 1 }
        if s6.renderPass_.colorAttachments.isEmpty then
          .error (Fault.undefined Undefined.vectorIndexOutOfRange, s6)
        else .ok { s6 with renderPass_ := setupRenderPass s6.renderPass_ }

/-- The function `createRenderPipeline` (lines 268-293). -/
def createRenderPipeline (s : State) : Outcome State :=
  match s.renderPipelineState_Triangle_ with
  | some _ => .ok s
  | none =>
    match s.framebuffer_ with
    | none => .error (Fault.assertFailed, s)
    | some fb =>
      let colorFormat := fb.colorAttachment0.map Texture.format
      let depthFormat := fb.depthAttachment.map Texture.format
      match s.device_ with
      | none => .error (Fault.undefined Undefined.nullDereference, s)
      | some dev =>
        let s1 := s.log Call.fromModuleStringInput
        let s2 := s1.log (Call.createRenderPipeline colorFormat depthFormat)
        if dev.compilesShaders = false then .error (Fault.assertFailed, s2)
        else
          .ok { s2 with
                  renderPipelineState_Triangle_ :=
                    some { handle := s2.nextHandle, colorFormat := colorFormat,
                           depthFormat := depthFormat },
                  nextHandle := s2.nextHandle + 1 }

/-- The function `getNativeDrawable` (lines 295-321), Vulkan branch; `res` is
what `createTextureFromNativeDrawable` returns. -/
def getNativeDrawable (res : Option Texture) (s : State) : Outcome (Texture × State) :=
  match s.device_ with
  | none => .error (Fault.undefined Undefined.nullDereference, s)
  | some _ =>
    let s1 := s.log Call.createTextureFromNativeDrawable
    match res with
    | none => .error (Fault.assertFailed, s1)
    | some d => .ok (d, s1)

/-- The function `createFramebuffer` (lines 323-337).  The device builds a new
framebuffer object around the descriptor, whose only attachment is the
drawable. -/
def createFramebuffer (s : State) (nativeDrawable : Texture) : Outcome State :=
  match s.device_ with
  | none => .error (Fault.undefined Undefined.nullDereference, s)
  | some _ =>
    let s1 := s.log (Call.createFramebuffer s.nextHandle nativeDrawable)
    .ok { s1 with
            framebuffer_ := some { handle := s.nextHandle,
                                   colorAttachment0 := some nativeDrawable,
                                   depthAttachment := none },
            nextHandle := s.nextHandle + 1 }

/-- Lines 340-345 of `render`: the framebuffer is rebuilt or rebound. -/
def syncFramebuffer (s : State) (nativeDrawable : Texture) : Outcome State :=
  match s.framebuffer_ with
  | none => .error (Fault.undefined Undefined.nullDereference, s)
  | some fb =>
    match fb.colorAttachment0 with
    | none => .error (Fault.undefined Undefined.nullDereference, s)
    | some att =>
      let size := att.getSize
      if toFloat size.width ≠ toFloat s.width_ ∨ toFloat size.height ≠ toFloat s.height_ then
        createFramebuffer s nativeDrawable
      else
        let s1 := s.log (Call.updateDrawable fb.handle nativeDrawable)
        .ok { s1 with framebuffer_ := some (fb.updateDrawable nativeDrawable) }

/-- Lines 347-367 of `render`: one command buffer is recorded and submitted. -/
def encodeAndSubmit (s : State) (nativeDrawable : Texture) : Outcome State :=
  match s.commandQueue_ with
  | none => .error (Fault.undefined Undefined.nullDereference, s)
  | some _ =>
    let viewport : Viewport := ⟨0, 0, s.width_, s.height_, 0, 1⟩
    let scissor : ScissorRect := ⟨0, 0, u32 s.width_, u32 s.height_⟩
    .ok { s with trace := s.trace ++
      [ Call.createCommandBuffer,
        Call.createRenderCommandEncoder s.renderPass_ s.framebuffer_,
        Call.bindRenderPipelineState s.renderPipelineState_Triangle_,
        Call.bindViewport viewport,
        Call.bindScissorRect scissor,
        Call.pushDebugGroupLabel,
        Call.draw PrimitiveType.Triangle 0 3,
        Call.popDebugGroupLabel,
        Call.endEncoding,
        Call.present nativeDrawable,
        Call.submit ] }

/-- The function `render` (lines 339-368). -/
def render (s : State) (nativeDrawable : Texture) : Outcome State :=
  match syncFramebuffer s nativeDrawable with
  | .error e => .error e
  | .ok s1 => encodeAndSubmit s1 nativeDrawable

/-- Delivery of one pending event to the callbacks registered in
`initWindow`; a close request sets the close flag inside GLFW. -/
def deliver (s : State) : WindowEvent → Outcome State
  | WindowEvent.size w h => windowSizeCallback s w h
  | WindowEvent.key k a => .ok (keyCallback s k a)
  | WindowEvent.close =>
    .ok { s with window_ := s.window_.map (fun _ => ({ shouldClose := true } : Window)) }

/-- Delivery of the pending events, oldest first. -/
def deliverAll : List WindowEvent → State → Outcome State
  | [], s => .ok s
  | e :: es, s =>
    match deliver s e with
    | .error f => .error f
    | .ok s1 => deliverAll es s1

/-- The call `glfwPollEvents()` with the events pending at that moment. -/
def glfwPollEvents (events : List WindowEvent) (s : State) : Outcome State :=
  deliverAll events (s.log Call.glfwPollEvents)

/-- The function `mainLoop` (lines 370-373). -/
def mainLoop (f : FrameInput) (s : State) : Outcome State :=
  match getNativeDrawable f.drawable s with
  | .error e => .error e
  | .ok (d, s1) =>
    match render s1 d with
    | .error e => .error e
    | .ok s2 => glfwPollEvents f.events s2

/-- Consecutive calls of `mainLoop`, one per input. -/
def frames : List FrameInput → State → Outcome State
  | [], s => .ok s
  | f :: fs, s =>
    match mainLoop f s with
    | .error e => .error e
    | .ok s1 => frames fs s1

/-- The loop `while (!glfwWindowShouldClose(window_)) mainLoop();` (lines
388-390) over a finite script of inputs; inputs left over when the close flag
is seen are not consumed. -/
def whileNotClosed : List FrameInput → State → Outcome State
  | [], s =>
    match s.window_ with
    | none => .error (Fault.undefined Undefined.nullDereference, s)
    | some w => if w.shouldClose then .ok s else .error (Fault.outOfInput, s)
  | f :: rest, s =>
    match s.window_ with
    | none => .error (Fault.undefined Undefined.nullDereference, s)
    | some w =>
      if w.shouldClose then .ok s
      else
        match mainLoop f s with
        | .error e => .error e
        | .ok s1 => whileNotClosed rest s1

/-- One `reset()` of lines 393-396: the global lets go of its object. -/
def release (r : Resource) (s : State) : State :=
  let s1 := s.log (Call.reset r)
  match r with
  | Resource.pipeline => { s1 with renderPipelineState_Triangle_ := none }
  | Resource.framebuffer => { s1 with framebuffer_ := none }
  | Resource.commandQueue => { s1 with commandQueue_ := none }
  | Resource.device => { s1 with device_ := none }

/-- Lines 393-399 of `runTriangle`: the objects are let go of, then the
window is destroyed. -/
def shutdown (s : State) : State :=
  let s1 := release Resource.pipeline s
  let s2 := release Resource.framebuffer s1
  let s3 := release Resource.commandQueue s2
  let s4 := release Resource.device s3
  (s4.log Call.glfwDestroyWindow).log Call.glfwTerminate

/-- The globals after line 376 of `runTriangle`: all zero or null, the color
attachment vector of the render pass resized to one default entry. -/
def programStart : State :=
  { State.initial with
      renderPass_ :=
        { colorAttachments := [⟨LoadAction.DontCare, StoreAction.DontCare, (0, 0, 0, 0)⟩],
          depthLoadAction := LoadAction.DontCare } }

/-- Lines 376-381 of `runTriangle`: everything before the main loop.  The
return value of `initWindow` is dropped, as in the source. -/
def startup (env : StartupEnv) : Outcome State :=
  let s1 := (initWindow env programStart).2
  match initIGL env s1 with
  | .error e => .error e
  | .ok s2 =>
    match getNativeDrawable env.firstDrawable s2 with
    | .error e => .error e
    | .ok (d, s3) =>
      match createFramebuffer s3 d with
      | .error e => .error e
      | .ok s4 => createRenderPipeline s4

/-- The function `runTriangle` (lines 375-401). -/
def runTriangle (env : StartupEnv) (inputs : List FrameInput) : Outcome State :=
  match startup env with
  | .error e => .error e
  | .ok s =>
    match whileNotClosed inputs s with
    | .error e => .error e
    | .ok s1 => .ok (shutdown s1)

/-! ## Observations on states and call records -/

/-- Size of the color attachment 0 of the cached framebuffer, when both exist. -/
def attachmentSize (s : State) : Option Size :=
  (s.framebuffer_.bind Framebuffer.colorAttachment0).map Texture.getSize

/-- The shared dimensions as a size. -/
def sharedSize (s : State) : Size := ⟨s.width_, s.height_⟩

/-- A size as the comparison of line 341 sees it: both fields as floats. -/
def floatSize (z : Size) : Size := ⟨toFloat z.width, toFloat z.height⟩

/-- The size of the cached color attachment as line 341 sees it. -/
def seenSize (s : State) : Option Size := (attachmentSize s).map floatSize

/-- Both fields of a size are below 2^24 in absolute value, so that their
conversion to float is exact. -/
def Size.Exact (z : Size) : Prop :=
  -16777216 < z.width ∧ z.width < 16777216 ∧ -16777216 < z.height ∧ z.height < 16777216

instance (z : Size) : Decidable z.Exact := by
  unfold Size.Exact; infer_instance

/-- A state in which a frame can be rendered: device, queue and a framebuffer
with a color attachment exist. -/
def Ready (s : State) : Prop :=
  s.device_.isSome = true ∧ s.commandQueue_.isSome = true ∧
    (attachmentSize s).isSome = true

instance (s : State) : Decidable (Ready s) := by
  unfold Ready; infer_instance

/-- The calls recorded after `s` on the way to `s1`. -/
def newCalls (s s1 : State) : List Call := s1.trace.drop s.trace.length

/-- For a call of the framebuffer sync step: `true` when it constructs a
framebuffer, `false` when it rebinds one; `none` for every other call. -/
def Call.syncKind : Call → Option Bool
  | Call.createFramebuffer _ _ => some true
  | Call.updateDrawable _ _ => some false
  | _ => none

/-- The sync steps of a call record, in order. -/
def syncKinds (cs : List Call) : List Bool := cs.filterMap Call.syncKind

/-- Number of pipeline constructions in a call record. -/
def pipelineBuilds (cs : List Call) : Nat :=
  (cs.filter (fun c => match c with
    | Call.createRenderPipeline _ _ => true
    | _ => false)).length

/-- The calls `render` records after the sync step, for given globals. -/
def encodedCalls (rp : RenderPassDesc) (fb : Option Framebuffer)
    (p : Option RenderPipelineState) (w h : Int) (d : Texture) : List Call :=
  [ Call.createCommandBuffer,
    Call.createRenderCommandEncoder rp fb,
    Call.bindRenderPipelineState p,
    Call.bindViewport ⟨0, 0, w, h, 0, 1⟩,
    Call.bindScissorRect ⟨0, 0, u32 w, u32 h⟩,
    Call.pushDebugGroupLabel,
    Call.draw PrimitiveType.Triangle 0 3,
    Call.popDebugGroupLabel,
    Call.endEncoding,
    Call.present d,
    Call.submit ]

/-- A call made while events are polled and delivered. -/
def Call.isEventCall : Call → Bool
  | Call.glfwPollEvents => true
  | Call.initSwapchain _ _ => true
  | _ => false

/-- A window-size event. -/
def WindowEvent.isSize : WindowEvent → Bool
  | WindowEvent.size _ _ => true
  | _ => false

/-- The four stages of a frame that the ordering property names. -/
inductive Phase where
  | acquire
  | sync
  | bindPipeline
  | submit
deriving DecidableEq, Repr

/-- The stage a call belongs to, for the calls that mark a stage. -/
def Call.phase : Call → Option Phase
  | Call.createTextureFromNativeDrawable => some Phase.acquire
  | Call.createFramebuffer _ _ => some Phase.sync
  | Call.updateDrawable _ _ => some Phase.sync
  | Call.bindRenderPipelineState _ => some Phase.bindPipeline
  | Call.submit => some Phase.submit
  | _ => none

/-- The stage marks of a call record, in order. -/
def phases (cs : List Call) : List Phase := cs.filterMap Call.phase

/-- The stage marks expected of `n` consecutive frames. -/
def framePhases : Nat → List Phase
  | 0 => []
  | n + 1 => [Phase.acquire, Phase.sync, Phase.bindPipeline, Phase.submit] ++ framePhases n

/-- Fields that event delivery never touches. -/
def SameObjects (s s1 : State) : Prop :=
  s1.device_ = s.device_ ∧ s1.commandQueue_ = s.commandQueue_ ∧
  s1.framebuffer_ = s.framebuffer_ ∧
  s1.renderPipelineState_Triangle_ = s.renderPipelineState_Triangle_ ∧
  s1.renderPass_ = s.renderPass_ ∧ s1.nextHandle = s.nextHandle

/-- The state an operation ends in, whether it ran to its end or faulted. -/
def stateOf : Outcome State → State
  | .ok s => s
  | .error (_, s) => s

/-- The fault an operation ended with, if any. -/
def faultOf : Outcome State → Option Fault
  | .ok _ => none
  | .error (f, _) => some f

/-- The calls that build the pipeline, let go of an object or destroy the
window. -/
def Call.isLifecycle : Call → Bool
  | Call.createRenderPipeline _ _ => true
  | Call.reset _ => true
  | Call.glfwDestroyWindow => true
  | _ => false

/-- The lifecycle calls of a call record, in order. -/
def lifecycle (cs : List Call) : List Call := cs.filter Call.isLifecycle

/-- Between `s` and `s1` the cached pipeline was neither replaced nor cleared
and no lifecycle call was made: no pipeline was built and nothing released. -/
def PipelineKept (s s1 : State) : Prop :=
  s1.renderPipelineState_Triangle_ = s.renderPipelineState_Triangle_ ∧
    lifecycle s1.trace = lifecycle s.trace

/-- State `s` caches the pipeline object `p`, and its call record holds `n`
pipeline constructions. -/
def HoldsPipeline (p : RenderPipelineState) (n : Nat) (s : State) : Prop :=
  s.renderPipelineState_Triangle_ = some p ∧ pipelineBuilds s.trace = n

/-! ## Test drivers -/

/-- One step of a sync test: the shared dimensions in force at the call and
the drawable passed to `render`. -/
structure SyncStep where
  width : Int
  height : Int
  drawable : Texture
deriving DecidableEq, Repr

/-- Call `render` with the shared dimensions set as the step says. -/
def renderWith (s : State) (x : SyncStep) : Outcome State :=
  render { s with width_ := x.width, height_ := x.height } x.drawable

/-- One `renderWith` per step, in order. -/
def renderSteps : List SyncStep → State → Outcome State
  | [], s => .ok s
  | x :: xs, s =>
    match renderWith s x with
    | .error e => .error e
    | .ok s1 => renderSteps xs s1

/-- An input of the main loop that delivers the drawable `d` and no event. -/
def quietFrame (d : Texture) : FrameInput := { drawable := some d, events := [] }

/-- One operation of a framebuffer-cache test. -/
inductive SyncOp where
  | create (d : Texture)
  | render (d : Texture)
  | resize (w h : Int)
deriving DecidableEq, Repr

/-- Run one operation of a framebuffer-cache test. -/
def runOp (s : State) : SyncOp → Outcome State
  | SyncOp.create d => createFramebuffer s d
  | SyncOp.render d => render s d
  | SyncOp.resize w h => windowSizeCallback s w h

/-- Run the operations of a framebuffer-cache test, in order. -/
def runOps : List SyncOp → State → Outcome State
  | [], s => .ok s
  | o :: os, s =>
    match runOp s o with
    | .error e => .error e
    | .ok s1 => runOps os s1

/-! ## Sample data -/

def gpuA : HWDeviceDesc := ⟨1, HWDeviceType.DiscreteGpu⟩

def gpuB : HWDeviceDesc := ⟨2, HWDeviceType.IntegratedGpu⟩

/-- A drawable with the given identity and size. -/
def drawable (handle w h : Nat) : Texture := ⟨handle, w, h, 44⟩

/-- A start-up in which every outside call succeeds, on an 800x600 window. -/
def goodEnv : StartupEnv :=
  { glfwInitOk := true, windowCreated := true, windowSize := (800, 600),
    contextCreated := true, discreteGpus := [gpuA], integratedGpus := [gpuB],
    deviceCreated := true, compilesShaders := true,
    firstDrawable := some (drawable 100 800 600) }

/-- A start-up in which `glfwCreateWindow` returns null; the Vulkan context
is then created without a surface and has no drawable to hand out. -/
def noWindowEnv : StartupEnv :=
  { goodEnv with windowCreated := false, firstDrawable := none }

/-- A start-up in which `glfwInit` fails and every later outside call
nevertheless answers. -/
def noGlfwEnv : StartupEnv := { goodEnv with glfwInitOk := false }

/-- A start-up on a machine with neither a discrete nor an integrated GPU. -/
def noGpuEnv : StartupEnv :=
  { goodEnv with discreteGpus := [], integratedGpus := [] }

/-- The globals after `initWindow` in the good start-up. -/
def windowReady : State := (initWindow goodEnv programStart).2

/-- The globals after `initIGL` in the good start-up. -/
def deviceReady : State := stateOf (initIGL goodEnv windowReady)

/-- The globals when the good start-up enters the main loop. -/
def running : State := stateOf (startup goodEnv)

/-- The running state right after a resize notification for 1024x768: the
cached framebuffer still has the 800x600 attachment. -/
def resized : State := stateOf (windowSizeCallback running 1024 768)

/-- A ready state whose cached color attachment measures 16777216x600 while
the shared dimensions are 16777217x600: the two widths differ and convert to
the same float. -/
def wideWindow : State :=
  stateOf (runOps [SyncOp.create (drawable 1 16777216 600), SyncOp.resize 16777217 600]
    deviceReady)

/-- Two passes of the main loop: during the first the window is resized to
1024x768, during the second the escape key is pressed. -/
def closingRun : List FrameInput :=
  [ { drawable := some (drawable 7 800 600), events := [WindowEvent.size 1024 768] },
    { drawable := some (drawable 8 1024 768),
      events := [WindowEvent.key GLFW_KEY_ESCAPE GLFW_PRESS] } ]

/-- The globals when the main loop of `closingRun` exits. -/
def atExit : State := stateOf (whileNotClosed closingRun running)

/-- The five drawables of the sync test of the spec, with a resize
notification before each change of size. -/
def transitionsWithResize : List SyncOp :=
  [ SyncOp.create (drawable 1 800 600), SyncOp.render (drawable 2 800 600),
    SyncOp.resize 1024 768,
    SyncOp.render (drawable 3 1024 768), SyncOp.render (drawable 4 1024 768),
    SyncOp.resize 640 480,
    SyncOp.render (drawable 5 640 480) ]

/-- The five drawables of the sync test of the spec, fed to the sync step
alone: the shared dimensions stay 800x600. -/
def transitionsAlone : List SyncOp :=
  [ SyncOp.create (drawable 1 800 600), SyncOp.render (drawable 2 800 600),
    SyncOp.render (drawable 3 1024 768), SyncOp.render (drawable 4 1024 768),
    SyncOp.render (drawable 5 640 480) ]

/-! ## Basic facts -/

theorem ready_iff (s : State) :
    Ready s ↔ ∃ dev q fb att, s.device_ = some dev ∧ s.commandQueue_ = some q ∧
      s.framebuffer_ = some fb ∧ fb.colorAttachment0 = some att := by
  unfold Ready attachmentSize
  constructor
  · rintro ⟨h1, h2, h3⟩
    cases hd : s.device_ with
    | none => simp [hd] at h1
    | some dev =>
      cases hq : s.commandQueue_ with
      | none => simp [hq] at h2
      | some q =>
        cases hf : s.framebuffer_ with
        | none => simp [hf] at h3
        | some fb =>
          cases ha : fb.colorAttachment0 with
          | none => simp [hf, ha] at h3
          | some att => exact ⟨dev, q, fb, att, rfl, rfl, rfl, ha⟩
  · rintro ⟨dev, q, fb, att, h1, h2, h3, h4⟩
    simp [h1, h2, h3, h4]

/-- The call the sync step of `render` makes in state `s`. -/
theorem roundF32_exact (n : Nat) (h : n < 16777216) : roundF32 n = n := by
  have he : dropBits 128 n = 0 := by
    show dropBits (127 + 1) n = 0
    simp [dropBits, h]
  simp [roundF32, he, Nat.mod_one]

theorem toFloat_exact (x : Int) (h0 : -16777216 < x) (h1 : x < 16777216) :
    toFloat x = x := by
  unfold toFloat
  split
  · rw [roundF32_exact _ (by omega)]
    omega
  · rw [roundF32_exact _ (by omega)]
    omega

theorem floatSize_exact (z : Size) (h : z.Exact) : floatSize z = z := by
  obtain ⟨h1, h2, h3, h4⟩ := h
  cases z with
  | mk w h =>
    simp only [floatSize, Size.mk.injEq]
    exact ⟨toFloat_exact w h1 h2, toFloat_exact h h3 h4⟩

theorem syncFramebuffer_stale (s : State) (d : Texture) (dev : Device) (fb : Framebuffer)
    (att : Texture) (hd : s.device_ = some dev) (hf : s.framebuffer_ = some fb)
    (ha : fb.colorAttachment0 = some att)
    (hne : floatSize att.getSize ≠ floatSize (sharedSize s)) :
    syncFramebuffer s d = .ok
      { s with framebuffer_ := some ⟨s.nextHandle, some d, none⟩,
               nextHandle := s.nextHandle + 1,
               trace := s.trace ++ [Call.createFramebuffer s.nextHandle d] } := by
  have hc : (toFloat att.getSize.width ≠ toFloat s.width_ ∨
      toFloat att.getSize.height ≠ toFloat s.height_) := by
    by_contra hcon
    push_neg at hcon
    apply hne
    simp only [floatSize, sharedSize, Size.mk.injEq]
    exact hcon
  simp only [syncFramebuffer, hf, ha]
  rw [if_pos hc]
  simp [createFramebuffer, hd, State.log]

theorem syncFramebuffer_fresh (s : State) (d : Texture) (fb : Framebuffer)
    (att : Texture) (hf : s.framebuffer_ = some fb)
    (ha : fb.colorAttachment0 = some att)
    (heq : floatSize att.getSize = floatSize (sharedSize s)) :
    syncFramebuffer s d = .ok
      { s with framebuffer_ := some ⟨fb.handle, some d, fb.depthAttachment⟩,
               trace := s.trace ++ [Call.updateDrawable fb.handle d] } := by
  have hc : ¬ (toFloat att.getSize.width ≠ toFloat s.width_ ∨
      toFloat att.getSize.height ≠ toFloat s.height_) := by
    simp only [floatSize, sharedSize, Size.mk.injEq] at heq
    rw [heq.1, heq.2]
    simp
  simp only [syncFramebuffer, hf, ha]
  rw [if_neg hc]
  simp [State.log, Framebuffer.updateDrawable]

theorem render_stale (s : State) (d : Texture) (dev : Device) (q : CommandQueue)
    (fb : Framebuffer) (att : Texture) (hd : s.device_ = some dev)
    (hq : s.commandQueue_ = some q) (hf : s.framebuffer_ = some fb)
    (ha : fb.colorAttachment0 = some att)
    (hne : floatSize att.getSize ≠ floatSize (sharedSize s)) :
    render s d = .ok
      { s with framebuffer_ := some ⟨s.nextHandle, some d, none⟩,
               nextHandle := s.nextHandle + 1,
               trace := s.trace ++ (Call.createFramebuffer s.nextHandle d ::
                 encodedCalls s.renderPass_ (some ⟨s.nextHandle, some d, none⟩)
                   s.renderPipelineState_Triangle_ s.width_ s.height_ d) } := by
  simp [render, syncFramebuffer_stale s d dev fb att hd hf ha hne, encodeAndSubmit, hq,
    encodedCalls]

theorem render_fresh (s : State) (d : Texture) (q : CommandQueue)
    (fb : Framebuffer) (att : Texture)
    (hq : s.commandQueue_ = some q) (hf : s.framebuffer_ = some fb)
    (ha : fb.colorAttachment0 = some att)
    (heq : floatSize att.getSize = floatSize (sharedSize s)) :
    render s d = .ok
      { s with framebuffer_ := some ⟨fb.handle, some d, fb.depthAttachment⟩,
               trace := s.trace ++ (Call.updateDrawable fb.handle d ::
                 encodedCalls s.renderPass_ (some ⟨fb.handle, some d, fb.depthAttachment⟩)
                   s.renderPipelineState_Triangle_ s.width_ s.height_ d) } := by
  simp [render, syncFramebuffer_fresh s d fb att hf ha heq, encodeAndSubmit, hq,
    encodedCalls]

theorem newCalls_append (s s1 : State) (cs : List Call) (h : s1.trace = s.trace ++ cs) :
    newCalls s s1 = cs := by
  simp [newCalls, h]

/-- What a call of `render` in a ready state does, whichever branch it takes. -/
theorem render_ready (s : State) (d : Texture) (hr : Ready s) :
    ∃ s1 fb1 c, render s d = .ok s1 ∧
      s1.framebuffer_ = some fb1 ∧ fb1.colorAttachment0 = some d ∧
      s1.trace = s.trace ++ (c :: encodedCalls s.renderPass_ (some fb1)
        s.renderPipelineState_Triangle_ s.width_ s.height_ d) ∧
      ((seenSize s ≠ some (floatSize (sharedSize s)) ∧ c = Call.createFramebuffer s.nextHandle d ∧
          fb1.handle = s.nextHandle) ∨
       (seenSize s = some (floatSize (sharedSize s)) ∧
          ∃ fb, s.framebuffer_ = some fb ∧ c = Call.updateDrawable fb.handle d ∧
            fb1.handle = fb.handle)) ∧
      s1.width_ = s.width_ ∧ s1.height_ = s.height_ ∧ s1.device_ = s.device_ ∧
      s1.commandQueue_ = s.commandQueue_ ∧ s1.renderPass_ = s.renderPass_ ∧
      s1.renderPipelineState_Triangle_ = s.renderPipelineState_Triangle_ ∧
      s1.window_ = s.window_ := by
  obtain ⟨dev, q, fb, att, hd, hq, hf, ha⟩ := (ready_iff s).1 hr
  have hsz : seenSize s = some (floatSize att.getSize) := by
    simp [seenSize, attachmentSize, hf, ha]
  by_cases hc : floatSize att.getSize = floatSize (sharedSize s)
  · refine ⟨_, _, _, render_fresh s d q fb att hq hf ha hc, rfl, rfl, rfl, ?_, rfl, rfl, rfl,
      rfl, rfl, rfl, rfl⟩
    right
    exact ⟨by rw [hsz, hc], fb, hf, rfl, rfl⟩
  · refine ⟨_, _, _, render_stale s d dev q fb att hd hq hf ha hc, rfl, rfl, rfl, ?_, rfl, rfl,
      rfl, rfl, rfl, rfl, rfl⟩
    left
    refine ⟨?_, rfl, rfl⟩
    rw [hsz]
    intro h
    exact hc (Option.some.inj h)

theorem render_ready_keeps (s s1 : State) (d : Texture) (hr : Ready s)
    (h : render s d = .ok s1) : Ready s1 ∧ attachmentSize s1 = some d.getSize := by
  obtain ⟨s2, fb1, c, h2, hf, ha, -, -, hw, hh, hd, hq, -⟩ := render_ready s d hr
  rw [h] at h2
  cases h2
  obtain ⟨dev, q, -, -, hd0, hq0, -, -⟩ := (ready_iff s).1 hr
  refine ⟨(ready_iff s1).2 ⟨dev, q, fb1, d, by rw [hd, hd0], by rw [hq, hq0], hf, ha⟩, ?_⟩
  simp [attachmentSize, hf, ha]

theorem renderWith_ready (s : State) (x : SyncStep) (hr : Ready s) :
    ∃ s1, renderWith s x = .ok s1 ∧ Ready s1 ∧
      attachmentSize s1 = some x.drawable.getSize := by
  have hr1 : Ready { s with width_ := x.width, height_ := x.height } := hr
  obtain ⟨s1, fb1, c, h, -⟩ := render_ready _ x.drawable hr1
  exact ⟨s1, h, render_ready_keeps _ s1 x.drawable hr1 h⟩

theorem renderSteps_ready (xs : List SyncStep) :
    ∀ s : State, Ready s → ∃ s1, renderSteps xs s = .ok s1 ∧ Ready s1 := by
  induction xs with
  | nil => intro s hr; exact ⟨s, rfl, hr⟩
  | cons x xs ih =>
    intro s hr
    obtain ⟨s1, h1, hr1, -⟩ := renderWith_ready s x hr
    obtain ⟨s2, h2, hr2⟩ := ih s1 hr1
    exact ⟨s2, by simp [renderSteps, h1, h2], hr2⟩

theorem renderSteps_append (xs ys : List SyncStep) :
    ∀ s s1 : State, renderSteps xs s = .ok s1 →
      renderSteps (xs ++ ys) s = renderSteps ys s1 := by
  induction xs with
  | nil => intro s s1 h; simp [renderSteps] at h; simp [h]
  | cons x xs ih =>
    intro s s1 h
    simp only [renderSteps, List.cons_append] at h ⊢
    cases hx : renderWith s x with
    | error e => simp [hx] at h
    | ok s2 =>
      simp only [hx] at h ⊢
      exact ih s2 s1 h

theorem createFramebuffer_ready (s0 s : State) (d0 : Texture)
    (hq : s0.commandQueue_.isSome = true) (h : createFramebuffer s0 d0 = .ok s) :
    Ready s ∧ attachmentSize s = some d0.getSize := by
  unfold createFramebuffer at h
  cases hd : s0.device_ with
  | none => simp [hd] at h
  | some dev =>
    simp only [hd, Except.ok.injEq] at h
    subst h
    simp [Ready, attachmentSize, State.log, hq, hd]

/-- C1 (framebuffer size invariant).  Start from a state whose framebuffer was
built by `createFramebuffer` (with the command queue in place).  Feed any
sequence of drawables to `render`, one per call, the shared dimensions being
set to arbitrary values before each call.  Then every call returns, and after
the last call of every such sequence (hence after each call) the color
attachment 0 of the cached framebuffer has exactly the size of the drawable
passed in that call. -/
theorem framebuffer_size_invariant (s0 s : State) (d0 : Texture)
    (hq : s0.commandQueue_.isSome = true) (h : createFramebuffer s0 d0 = .ok s)
    (steps : List SyncStep) (x : SyncStep) :
    ∃ s1, renderSteps (steps ++ [x]) s = .ok s1 ∧
      attachmentSize s1 = some x.drawable.getSize := by
  obtain ⟨s2, h2, hr2⟩ := renderSteps_ready steps s (createFramebuffer_ready s0 s d0 hq h).1
  obtain ⟨s3, h3, -, hs⟩ := renderWith_ready s2 x hr2
  refine ⟨s3, ?_, hs⟩
  rw [renderSteps_append steps [x] s s2 h2]
  simp [renderSteps, h3]

theorem framebuffer_size_invariant_witness :
    deviceReady.commandQueue_.isSome = true ∧
    createFramebuffer deviceReady (drawable 100 800 600) =
      .ok (stateOf (createFramebuffer deviceReady (drawable 100 800 600))) ∧
    ∃ s1, renderSteps ([⟨800, 600, drawable 1 800 600⟩, ⟨800, 600, drawable 2 1024 768⟩] ++
        [⟨5, 5, drawable 3 640 480⟩])
        (stateOf (createFramebuffer deviceReady (drawable 100 800 600))) = .ok s1 ∧
      attachmentSize s1 = some (drawable 3 640 480).getSize :=
  ⟨by decide, by rfl,
    framebuffer_size_invariant deviceReady _ (drawable 100 800 600) (by decide) (by rfl)
      [⟨800, 600, drawable 1 800 600⟩, ⟨800, 600, drawable 2 1024 768⟩]
      ⟨5, 5, drawable 3 640 480⟩⟩

/-! ## Events and the main loop -/

theorem deliver_ok (s : State) (e : WindowEvent) (hd : s.device_.isSome = true) :
    ∃ s1 cs, deliver s e = .ok s1 ∧ SameObjects s s1 ∧ s1.trace = s.trace ++ cs ∧
      (∀ c ∈ cs, c.isEventCall = true) ∧
      (e.isSize = false → s1.width_ = s.width_ ∧ s1.height_ = s.height_) := by
  cases hdev : s.device_ with
  | none => simp [hdev] at hd
  | some dev =>
    cases e with
    | size w h =>
      refine ⟨{ s with width_ := w, height_ := h,
                       trace := s.trace ++ [Call.initSwapchain (u32 w) (u32 h)] },
        [Call.initSwapchain (u32 w) (u32 h)], ?_, ?_, ?_, ?_, ?_⟩
      · simp [deliver, windowSizeCallback, hdev, State.log]
      · simp [SameObjects]
      · rfl
      · simp [Call.isEventCall]
      · simp [WindowEvent.isSize]
    | key k a =>
      refine ⟨keyCallback s k a, [], rfl, ?_, ?_, by simp, ?_⟩
      · unfold keyCallback; split <;> simp [SameObjects]
      · unfold keyCallback; split <;> simp
      · intro _; unfold keyCallback; split <;> simp
    | close =>
      exact ⟨_, [], rfl, by simp [SameObjects], by simp, by simp, fun _ => ⟨rfl, rfl⟩⟩

theorem deliverAll_ok (es : List WindowEvent) :
    ∀ s : State, s.device_.isSome = true →
    ∃ s1 cs, deliverAll es s = .ok s1 ∧ SameObjects s s1 ∧ s1.trace = s.trace ++ cs ∧
      (∀ c ∈ cs, c.isEventCall = true) ∧
      ((∀ e ∈ es, e.isSize = false) → s1.width_ = s.width_ ∧ s1.height_ = s.height_) := by
  induction es with
  | nil =>
    intro s _
    exact ⟨s, [], rfl, ⟨rfl, rfl, rfl, rfl, rfl, rfl⟩, by simp, by simp, fun _ => ⟨rfl, rfl⟩⟩
  | cons e es ih =>
    intro s hd
    obtain ⟨s1, cs1, h1, ho1, ht1, hc1, hw1⟩ := deliver_ok s e hd
    have hd1 : s1.device_.isSome = true := by rw [ho1.1]; exact hd
    obtain ⟨s2, cs2, h2, ho2, ht2, hc2, hw2⟩ := ih s1 hd1
    refine ⟨s2, cs1 ++ cs2, by simp [deliverAll, h1, h2], ?_, ?_, ?_, ?_⟩
    · obtain ⟨a1, a2, a3, a4, a5, a6⟩ := ho1
      obtain ⟨b1, b2, b3, b4, b5, b6⟩ := ho2
      exact ⟨b1.trans a1, b2.trans a2, b3.trans a3, b4.trans a4, b5.trans a5, b6.trans a6⟩
    · rw [ht2, ht1, List.append_assoc]
    · intro c hc
      rcases List.mem_append.1 hc with h | h
      · exact hc1 c h
      · exact hc2 c h
    · intro hall
      have ha := hw1 (hall e (List.mem_cons_self e es))
      have hb := hw2 (fun e1 he1 => hall e1 (List.mem_cons_of_mem e he1))
      exact ⟨hb.1.trans ha.1, hb.2.trans ha.2⟩

theorem glfwPollEvents_ok (es : List WindowEvent) (s : State)
    (hd : s.device_.isSome = true) :
    ∃ s1 cs, glfwPollEvents es s = .ok s1 ∧ SameObjects s s1 ∧ s1.trace = s.trace ++ cs ∧
      (∀ c ∈ cs, c.isEventCall = true) ∧
      ((∀ e ∈ es, e.isSize = false) → s1.width_ = s.width_ ∧ s1.height_ = s.height_) := by
  obtain ⟨s1, cs, h, ho, ht, hc, hw⟩ := deliverAll_ok es (s.log Call.glfwPollEvents) hd
  refine ⟨s1, Call.glfwPollEvents :: cs, h, ho, ?_, ?_, hw⟩
  · rw [ht]; simp [State.log]
  · intro c hc1
    rcases List.mem_cons.1 hc1 with h1 | h1
    · rw [h1]; rfl
    · exact hc c h1

theorem log_ready (s : State) (c : Call) (hr : Ready s) : Ready (s.log c) := hr

/-- What one pass of the main loop does in a ready state, when the platform
device hands out the drawable `d`. -/
theorem mainLoop_ready (s : State) (f : FrameInput) (d : Texture) (hr : Ready s)
    (hf : f.drawable = some d) :
    ∃ s1 fb1 c cs, mainLoop f s = .ok s1 ∧ Ready s1 ∧
      s1.framebuffer_ = some fb1 ∧ fb1.colorAttachment0 = some d ∧
      s1.trace = s.trace ++ (Call.createTextureFromNativeDrawable :: c ::
        (encodedCalls s.renderPass_ (some fb1) s.renderPipelineState_Triangle_
          s.width_ s.height_ d ++ cs)) ∧
      (∀ c1 ∈ cs, c1.isEventCall = true) ∧
      ((seenSize s ≠ some (floatSize (sharedSize s)) ∧ c = Call.createFramebuffer s.nextHandle d) ∨
       (seenSize s = some (floatSize (sharedSize s)) ∧
          ∃ fb, s.framebuffer_ = some fb ∧ c = Call.updateDrawable fb.handle d)) ∧
      s1.renderPipelineState_Triangle_ = s.renderPipelineState_Triangle_ ∧
      ((∀ e ∈ f.events, e.isSize = false) → s1.width_ = s.width_ ∧ s1.height_ = s.height_) := by
  obtain ⟨dev, q, fb, att, hd, hq, hfb, ha⟩ := (ready_iff s).1 hr
  have hg : getNativeDrawable f.drawable s =
      .ok (d, s.log Call.createTextureFromNativeDrawable) := by
    simp [getNativeDrawable, hd, hf]
  obtain ⟨s2, fb1, c, h2, hf2, ha2, ht2, hb2, hw2, hh2, hd2, hq2, hrp2, hp2, -⟩ :=
    render_ready (s.log Call.createTextureFromNativeDrawable) d
      (log_ready s Call.createTextureFromNativeDrawable hr)
  have hr2 := (render_ready_keeps _ s2 d
    (log_ready s Call.createTextureFromNativeDrawable hr) h2).1
  have hdev2 : s2.device_.isSome = true := hr2.1
  obtain ⟨s3, cs, h3, ho3, ht3, hc3, hw3⟩ := glfwPollEvents_ok f.events s2 hdev2
  obtain ⟨o1, o2, o3, o4, o5, o6⟩ := ho3
  refine ⟨s3, fb1, c, cs, ?_, ?_, o3.trans hf2, ha2, ?_, hc3, ?_, ?_, ?_⟩
  · simp [mainLoop, hg, h2, h3]
  · obtain ⟨dev2, q2, fb2, att2, a1, a2, a3, a4⟩ := (ready_iff s2).1 hr2
    exact (ready_iff s3).2 ⟨dev2, q2, fb2, att2, o1.trans a1, o2.trans a2, o3.trans a3, a4⟩
  · rw [ht3, ht2]
    simp [State.log]
  · rcases hb2 with ⟨h1, h2, -⟩ | ⟨h1, fb0, h2, h3, -⟩
    · left; exact ⟨h1, h2⟩
    · right; exact ⟨h1, fb0, h2, h3⟩
  · exact o4.trans hp2
  · intro hall
    obtain ⟨e1, e2⟩ := hw3 hall
    exact ⟨e1.trans hw2, e2.trans hh2⟩

theorem phases_events (cs : List Call) (h : ∀ c ∈ cs, c.isEventCall = true) :
    phases cs = [] := by
  unfold phases
  rw [List.filterMap_eq_nil_iff]
  intro c hc
  have := h c hc
  cases c <;> simp_all [Call.isEventCall, Call.phase]

theorem syncKinds_events (cs : List Call) (h : ∀ c ∈ cs, c.isEventCall = true) :
    syncKinds cs = [] := by
  unfold syncKinds
  rw [List.filterMap_eq_nil_iff]
  intro c hc
  have := h c hc
  cases c <;> simp_all [Call.isEventCall, Call.syncKind]

theorem pipelineBuilds_events (cs : List Call) (h : ∀ c ∈ cs, c.isEventCall = true) :
    pipelineBuilds cs = 0 := by
  unfold pipelineBuilds
  rw [List.length_eq_zero, List.filter_eq_nil_iff]
  intro c hc
  have := h c hc
  cases c <;> simp_all [Call.isEventCall]

theorem pipelineBuilds_append (as bs : List Call) :
    pipelineBuilds (as ++ bs) = pipelineBuilds as + pipelineBuilds bs := by
  simp [pipelineBuilds]

theorem phases_append (as bs : List Call) : phases (as ++ bs) = phases as ++ phases bs := by
  simp [phases]

theorem syncKinds_append (as bs : List Call) :
    syncKinds (as ++ bs) = syncKinds as ++ syncKinds bs := by
  simp [syncKinds]

/-! ## The pipeline cache -/

theorem pipelineKept_refl (s : State) : PipelineKept s s := ⟨rfl, rfl⟩

theorem pipelineKept_trans (s s1 s2 : State) (h1 : PipelineKept s s1)
    (h2 : PipelineKept s1 s2) : PipelineKept s s2 :=
  ⟨h2.1.trans h1.1, h2.2.trans h1.2⟩

theorem lifecycle_append (as bs : List Call) :
    lifecycle (as ++ bs) = lifecycle as ++ lifecycle bs := by
  simp [lifecycle]

theorem pipelineBuilds_lifecycle (cs : List Call) :
    pipelineBuilds (lifecycle cs) = pipelineBuilds cs := by
  unfold pipelineBuilds lifecycle
  rw [List.filter_filter]
  congr 2
  funext c
  cases c <;> rfl

theorem pipelineKept_builds (s s1 : State) (h : PipelineKept s s1) :
    pipelineBuilds s1.trace = pipelineBuilds s.trace := by
  rw [← pipelineBuilds_lifecycle s1.trace, h.2, pipelineBuilds_lifecycle]

theorem createFramebuffer_kept (s : State) (d : Texture) :
    PipelineKept s (stateOf (createFramebuffer s d)) := by
  unfold createFramebuffer
  cases hd : s.device_ with
  | none => exact pipelineKept_refl s
  | some dev =>
    simp [stateOf, PipelineKept, State.log, lifecycle_append]
    rfl

theorem syncFramebuffer_kept (s : State) (d : Texture) :
    PipelineKept s (stateOf (syncFramebuffer s d)) := by
  unfold syncFramebuffer
  cases hf : s.framebuffer_ with
  | none => exact pipelineKept_refl s
  | some fb =>
    simp only []
    cases ha : fb.colorAttachment0 with
    | none => exact pipelineKept_refl s
    | some att =>
      simp only []
      by_cases hc : (toFloat att.getSize.width ≠ toFloat s.width_ ∨
          toFloat att.getSize.height ≠ toFloat s.height_)
      · rw [if_pos hc]
        exact createFramebuffer_kept s d
      · rw [if_neg hc]
        simp [stateOf, PipelineKept, State.log, lifecycle_append]
        rfl

theorem encodeAndSubmit_kept (s : State) (d : Texture) :
    PipelineKept s (stateOf (encodeAndSubmit s d)) := by
  unfold encodeAndSubmit
  cases hq : s.commandQueue_ with
  | none => exact pipelineKept_refl s
  | some q =>
    simp [stateOf, PipelineKept, lifecycle_append]
    rfl

theorem render_kept (s : State) (d : Texture) :
    PipelineKept s (stateOf (render s d)) := by
  have h1 := syncFramebuffer_kept s d
  unfold render
  cases hs : syncFramebuffer s d with
  | error e =>
    rw [hs] at h1
    exact h1
  | ok s1 =>
    rw [hs] at h1
    exact pipelineKept_trans s s1 _ h1 (encodeAndSubmit_kept s1 d)

theorem windowSizeCallback_kept (s : State) (w h : Int) :
    PipelineKept s (stateOf (windowSizeCallback s w h)) := by
  unfold windowSizeCallback
  cases hd : s.device_ with
  | none => simp [stateOf, PipelineKept, hd]
  | some dev =>
    simp [stateOf, PipelineKept, State.log, lifecycle_append, hd]
    rfl

theorem deliver_kept (s : State) (e : WindowEvent) :
    PipelineKept s (stateOf (deliver s e)) := by
  cases e with
  | size w h => exact windowSizeCallback_kept s w h
  | key k a =>
    simp only [deliver, stateOf, keyCallback]
    split <;> exact ⟨rfl, rfl⟩
  | close => exact ⟨rfl, rfl⟩

theorem deliverAll_kept (es : List WindowEvent) :
    ∀ s : State, PipelineKept s (stateOf (deliverAll es s)) := by
  induction es with
  | nil => intro s; exact pipelineKept_refl s
  | cons e es ih =>
    intro s
    have h1 := deliver_kept s e
    unfold deliverAll
    cases hs : deliver s e with
    | error f => rw [hs] at h1; exact h1
    | ok s1 =>
      rw [hs] at h1
      exact pipelineKept_trans s s1 _ h1 (ih s1)

theorem log_kept (s : State) (c : Call) (h : c.isLifecycle = false) :
    PipelineKept s (s.log c) := by
  simp [PipelineKept, State.log, lifecycle_append, lifecycle, h]

theorem mainLoop_kept (f : FrameInput) (s : State) :
    PipelineKept s (stateOf (mainLoop f s)) := by
  unfold mainLoop getNativeDrawable
  cases hd : s.device_ with
  | none => exact pipelineKept_refl s
  | some dev =>
    have h0 : PipelineKept s (s.log Call.createTextureFromNativeDrawable) :=
      log_kept s _ rfl
    cases hf : f.drawable with
    | none => exact h0
    | some d =>
      simp only []
      have h1 := render_kept (s.log Call.createTextureFromNativeDrawable) d
      cases hr : render (s.log Call.createTextureFromNativeDrawable) d with
      | error e =>
        rw [hr] at h1
        exact pipelineKept_trans _ _ _ h0 h1
      | ok s2 =>
        rw [hr] at h1
        simp only []
        refine pipelineKept_trans _ _ _ (pipelineKept_trans _ _ _ h0 h1) ?_
        unfold glfwPollEvents
        exact pipelineKept_trans _ _ _ (log_kept s2 Call.glfwPollEvents rfl) (deliverAll_kept _ _)

theorem frames_kept (fs : List FrameInput) :
    ∀ s : State, PipelineKept s (stateOf (frames fs s)) := by
  induction fs with
  | nil => intro s; exact pipelineKept_refl s
  | cons f fs ih =>
    intro s
    have h1 := mainLoop_kept f s
    unfold frames
    cases hs : mainLoop f s with
    | error e => rw [hs] at h1; exact h1
    | ok s1 =>
      rw [hs] at h1
      exact pipelineKept_trans s s1 _ h1 (ih s1)

theorem whileNotClosed_kept (fs : List FrameInput) :
    ∀ s : State, PipelineKept s (stateOf (whileNotClosed fs s)) := by
  induction fs with
  | nil =>
    intro s
    unfold whileNotClosed
    cases hw : s.window_ with
    | none => exact pipelineKept_refl s
    | some w =>
      simp only []
      split <;> exact pipelineKept_refl s
  | cons f fs ih =>
    intro s
    unfold whileNotClosed
    cases hw : s.window_ with
    | none => exact pipelineKept_refl s
    | some w =>
      simp only []
      split
      · exact pipelineKept_refl s
      · have h1 := mainLoop_kept f s
        cases hs : mainLoop f s with
        | error e => rw [hs] at h1; exact h1
        | ok s1 =>
          rw [hs] at h1
          exact pipelineKept_trans s s1 _ h1 (ih s1)

theorem initWindow_kept (env : StartupEnv) (s : State) :
    PipelineKept s (initWindow env s).2 := by
  unfold initWindow
  simp only []
  split
  · exact log_kept s Call.glfwInit rfl
  · split
    · simp [PipelineKept, State.log, lifecycle_append]
      rfl
    · simp [PipelineKept, State.log, lifecycle_append]
      rfl

theorem initIGL_kept (env : StartupEnv) (s : State) :
    PipelineKept s (stateOf (initIGL env s)) := by
  unfold initIGL
  simp only []
  split
  · exact log_kept s _ rfl
  · split
    · by_cases he : env.discreteGpus.isEmpty = true
      · simp [he, stateOf, PipelineKept, State.log, lifecycle_append]
        rfl
      · simp [he, stateOf, PipelineKept, State.log, lifecycle_append]
        rfl
    · split
      · by_cases he : env.discreteGpus.isEmpty = true
        · simp [he, stateOf, PipelineKept, State.log, lifecycle_append]
          rfl
        · simp [he, stateOf, PipelineKept, State.log, lifecycle_append]
          rfl
      · by_cases he : env.discreteGpus.isEmpty = true <;>
          by_cases hrp : s.renderPass_.colorAttachments.isEmpty = true <;>
          · simp [he, hrp, stateOf, PipelineKept, State.log, lifecycle_append]
            rfl

theorem getNativeDrawable_kept (res : Option Texture) (s s1 : State) (d : Texture)
    (h : getNativeDrawable res s = .ok (d, s1)) : PipelineKept s s1 := by
  unfold getNativeDrawable at h
  cases hd : s.device_ with
  | none => simp [hd] at h
  | some dev =>
    cases res with
    | none => simp [hd] at h
    | some d1 =>
      simp only [hd, Except.ok.injEq, Prod.mk.injEq] at h
      rw [← h.2]
      exact log_kept s _ rfl

theorem createRenderPipeline_first (s s1 : State)
    (hn : s.renderPipelineState_Triangle_ = none) (h : createRenderPipeline s = .ok s1) :
    ∃ p cf df, s1.renderPipelineState_Triangle_ = some p ∧
      lifecycle s1.trace = lifecycle s.trace ++ [Call.createRenderPipeline cf df] := by
  unfold createRenderPipeline at h
  simp only [hn] at h
  cases hf : s.framebuffer_ with
  | none => simp [hf] at h
  | some fb =>
    cases hd : s.device_ with
    | none => simp [hf, hd] at h
    | some dev =>
      simp only [hf, hd] at h
      cases hc : dev.compilesShaders with
      | false => simp [hc] at h
      | true =>
        simp only [hc, Bool.true_eq_false, if_false, Except.ok.injEq] at h
        subst h
        refine ⟨_, fb.colorAttachment0.map Texture.format,
          fb.depthAttachment.map Texture.format, rfl, ?_⟩
        simp [State.log, lifecycle_append]
        rfl

theorem createRenderPipeline_cached (s : State) (p : RenderPipelineState)
    (hp : s.renderPipelineState_Triangle_ = some p) : createRenderPipeline s = .ok s := by
  simp [createRenderPipeline, hp]

/-- A start-up that succeeds has built the pipeline once and released
nothing. -/
theorem startup_lifecycle (env : StartupEnv) (s0 : State) (h : startup env = .ok s0) :
    ∃ p cf df, s0.renderPipelineState_Triangle_ = some p ∧
      lifecycle s0.trace = [Call.createRenderPipeline cf df] := by
  unfold startup at h
  simp only [] at h
  have hw := initWindow_kept env programStart
  generalize (initWindow env programStart).2 = s1 at h hw
  have hi := initIGL_kept env s1
  cases h2 : initIGL env s1 with
  | error e => simp [h2] at h
  | ok s2 =>
    rw [h2] at hi
    simp only [h2] at h
    cases h3 : getNativeDrawable env.firstDrawable s2 with
    | error e => simp [h3] at h
    | ok r =>
      obtain ⟨d, s3⟩ := r
      have hg := getNativeDrawable_kept _ _ _ _ h3
      simp only [h3] at h
      have hc := createFramebuffer_kept s3 d
      cases h4 : createFramebuffer s3 d with
      | error e => simp [h4] at h
      | ok s4 =>
        rw [h4] at hc
        simp only [h4] at h
        have hall : PipelineKept programStart s4 :=
          pipelineKept_trans _ _ _ hw (pipelineKept_trans _ _ _ hi
            (pipelineKept_trans _ _ _ hg hc))
        have hnone : s4.renderPipelineState_Triangle_ = none := by
          rw [hall.1]; rfl
        obtain ⟨p, cf, df, hp1, hp2⟩ := createRenderPipeline_first s4 s0 hnone h
        refine ⟨p, cf, df, hp1, ?_⟩
        rw [hp2, hall.2]
        rfl

/-- C4 (pipeline built once).  Let `s` be a state that caches the pipeline
object `p`.  Then `createRenderPipeline` returns at once: the state, hence the
call record, is unchanged and `p` stays cached.  After a call of `render`, of
the window-size callback, of `createFramebuffer`, or after any number of
passes of the main loop with any events, whether the operation ran to its end
or faulted, `p` is still the cached pipeline and the call record holds no
further pipeline construction; a later `createRenderPipeline` is again a
no-op.  Over a whole run: when start-up succeeds, the record holds exactly one
pipeline construction, and it still holds exactly one, with the same object
cached, however the main loop goes on. -/
theorem pipeline_built_once (s : State) (p : RenderPipelineState)
    (hp : s.renderPipelineState_Triangle_ = some p) :
    createRenderPipeline s = .ok s ∧
    (∀ d, HoldsPipeline p (pipelineBuilds s.trace) (stateOf (render s d))) ∧
    (∀ w h, HoldsPipeline p (pipelineBuilds s.trace) (stateOf (windowSizeCallback s w h))) ∧
    (∀ d, HoldsPipeline p (pipelineBuilds s.trace) (stateOf (createFramebuffer s d))) ∧
    (∀ fs, HoldsPipeline p (pipelineBuilds s.trace) (stateOf (frames fs s)) ∧
      createRenderPipeline (stateOf (frames fs s)) = .ok (stateOf (frames fs s))) ∧
    (∀ env s0, startup env = .ok s0 →
      ∃ p0, HoldsPipeline p0 1 s0 ∧
        ∀ inputs, HoldsPipeline p0 1 (stateOf (whileNotClosed inputs s0))) := by
  have key : ∀ s1 : State, PipelineKept s s1 →
      HoldsPipeline p (pipelineBuilds s.trace) s1 :=
    fun s1 h => ⟨h.1.trans hp, pipelineKept_builds s s1 h⟩
  refine ⟨createRenderPipeline_cached s p hp, fun d => key _ (render_kept s d),
    fun w h => key _ (windowSizeCallback_kept s w h),
    fun d => key _ (createFramebuffer_kept s d), fun fs => ?_, fun env s0 h0 => ?_⟩
  · have h := key _ (frames_kept fs s)
    exact ⟨h, createRenderPipeline_cached _ p h.1⟩
  · obtain ⟨p0, cf, df, h1, h2⟩ := startup_lifecycle env s0 h0
    have hb : pipelineBuilds s0.trace = 1 := by
      rw [← pipelineBuilds_lifecycle, h2]; rfl
    refine ⟨p0, ⟨h1, hb⟩, fun inputs => ?_⟩
    have hk := whileNotClosed_kept inputs s0
    exact ⟨hk.1.trans h1, (pipelineKept_builds s0 _ hk).trans hb⟩

theorem pipeline_built_once_witness :
    running.renderPipelineState_Triangle_ = some ⟨2, some 44, none⟩ ∧
    (createRenderPipeline running = .ok running ∧
    (∀ d, HoldsPipeline ⟨2, some 44, none⟩ (pipelineBuilds running.trace)
      (stateOf (render running d))) ∧
    (∀ w h, HoldsPipeline ⟨2, some 44, none⟩ (pipelineBuilds running.trace)
      (stateOf (windowSizeCallback running w h))) ∧
    (∀ d, HoldsPipeline ⟨2, some 44, none⟩ (pipelineBuilds running.trace)
      (stateOf (createFramebuffer running d))) ∧
    (∀ fs, HoldsPipeline ⟨2, some 44, none⟩ (pipelineBuilds running.trace)
        (stateOf (frames fs running)) ∧
      createRenderPipeline (stateOf (frames fs running)) = .ok (stateOf (frames fs running))) ∧
    (∀ env s0, startup env = .ok s0 →
      ∃ p0, HoldsPipeline p0 1 s0 ∧
        ∀ inputs, HoldsPipeline p0 1 (stateOf (whileNotClosed inputs s0)))) :=
  ⟨by decide, pipeline_built_once running ⟨2, some 44, none⟩ (by decide)⟩

/-! ## Frame ordering -/

theorem frame_calls_phases (c : Call) (rp : RenderPassDesc) (fb : Option Framebuffer)
    (p : Option RenderPipelineState) (w h : Int) (d : Texture) (cs : List Call)
    (hc : c.phase = some Phase.sync) (hcs : ∀ c1 ∈ cs, c1.isEventCall = true) :
    phases (Call.createTextureFromNativeDrawable :: c :: (encodedCalls rp fb p w h d ++ cs)) =
      [Phase.acquire, Phase.sync, Phase.bindPipeline, Phase.submit] := by
  have h1 : phases (Call.createTextureFromNativeDrawable :: c ::
      (encodedCalls rp fb p w h d ++ cs)) =
      phases [Call.createTextureFromNativeDrawable] ++ phases [c] ++
        phases (encodedCalls rp fb p w h d) ++ phases cs := by
    show phases ([Call.createTextureFromNativeDrawable] ++ ([c] ++
      (encodedCalls rp fb p w h d ++ cs))) = _
    simp only [phases_append, List.append_assoc]
  have h2 : phases [c] = [Phase.sync] := by
    simp [phases, List.filterMap_cons, hc]
  rw [h1, phases_events cs hcs, h2]
  rfl

theorem mainLoop_phases (s : State) (f : FrameInput) (hr : Ready s)
    (hf : f.drawable.isSome = true) :
    ∃ s1, mainLoop f s = .ok s1 ∧ Ready s1 ∧
      ∃ cs, s1.trace = s.trace ++ cs ∧
        phases cs = [Phase.acquire, Phase.sync, Phase.bindPipeline, Phase.submit] := by
  cases hd : f.drawable with
  | none => simp [hd] at hf
  | some d =>
    obtain ⟨s1, fb1, c, cs, h1, hr1, -, -, ht, hcs, hb, -, -⟩ := mainLoop_ready s f d hr hd
    refine ⟨s1, h1, hr1, _, ht, ?_⟩
    apply frame_calls_phases _ _ _ _ _ _ _ _ _ hcs
    rcases hb with ⟨-, hc⟩ | ⟨-, fb, -, hc⟩ <;> rw [hc] <;> rfl

theorem frames_phases (fs : List FrameInput) :
    ∀ s : State, Ready s → (∀ f ∈ fs, f.drawable.isSome = true) →
      ∃ s1, frames fs s = .ok s1 ∧
        ∃ cs, s1.trace = s.trace ++ cs ∧ phases cs = framePhases fs.length := by
  induction fs with
  | nil => intro s _ _; exact ⟨s, rfl, [], by simp, rfl⟩
  | cons f fs ih =>
    intro s hr hall
    obtain ⟨s1, h1, hr1, cs1, ht1, hp1⟩ :=
      mainLoop_phases s f hr (hall f (List.mem_cons_self f fs))
    obtain ⟨s2, h2, cs2, ht2, hp2⟩ :=
      ih s1 hr1 (fun g hg => hall g (List.mem_cons_of_mem f hg))
    refine ⟨s2, by simp [frames, h1, h2], cs1 ++ cs2, ?_, ?_⟩
    · rw [ht2, ht1, List.append_assoc]
    · rw [phases_append, hp1, hp2]
      rfl

/-- C5 (frame ordering).  In a ready state (device, queue and framebuffer in
place), one pass of the main loop whose drawable acquisition succeeds runs to
its end, and among the calls it records the stage marks are, in this order and
once each: drawable acquisition, framebuffer sync (construction or rebind),
pipeline binding, submission.  For every number of consecutive passes, with
any events delivered between them, the stage marks of the whole record are
that same sequence of four, repeated once per pass. -/
theorem frame_ordering (s : State) (hr : Ready s) :
    (∀ f : FrameInput, f.drawable.isSome = true →
      ∃ s1, mainLoop f s = .ok s1 ∧
        phases (newCalls s s1) =
          [Phase.acquire, Phase.sync, Phase.bindPipeline, Phase.submit]) ∧
    (∀ fs : List FrameInput, (∀ f ∈ fs, f.drawable.isSome = true) →
      ∃ s1, frames fs s = .ok s1 ∧
        phases (newCalls s s1) = framePhases fs.length) := by
  constructor
  · intro f hf
    obtain ⟨s1, h1, -, cs, ht, hp⟩ := mainLoop_phases s f hr hf
    exact ⟨s1, h1, by rw [newCalls_append s s1 cs ht, hp]⟩
  · intro fs hfs
    obtain ⟨s1, h1, cs, ht, hp⟩ := frames_phases fs s hr hfs
    exact ⟨s1, h1, by rw [newCalls_append s s1 cs ht, hp]⟩

theorem frame_ordering_witness :
    Ready running ∧
    ∃ s1, frames (List.replicate 100 (quietFrame (drawable 7 800 600))) running = .ok s1 ∧
      phases (newCalls running s1) = framePhases 100 :=
  ⟨by decide,
    by
      have h := (frame_ordering running (by decide)).2
        (List.replicate 100 (quietFrame (drawable 7 800 600)))
        (fun f hf => by rw [List.eq_of_mem_replicate hf]; rfl)
      rw [List.length_replicate] at h
      exact h⟩

/-! ## The recorded frame -/

theorem seenSize_exact (s : State) (z : Size) (h : attachmentSize s = some z)
    (hz : z.Exact) : seenSize s = some z := by
  simp [seenSize, h, floatSize_exact z hz]

theorem render_syncKinds (s : State) (d : Texture) (hr : Ready s) :
    ∃ s1 fb1, render s d = .ok s1 ∧ Ready s1 ∧
      s1.framebuffer_ = some fb1 ∧ fb1.colorAttachment0 = some d ∧
      s1.width_ = s.width_ ∧ s1.height_ = s.height_ ∧
      ((seenSize s ≠ some (floatSize (sharedSize s)) ∧
          syncKinds (newCalls s s1) = [true]) ∨
       (seenSize s = some (floatSize (sharedSize s)) ∧
          syncKinds (newCalls s s1) = [false] ∧
          ∃ fb, s.framebuffer_ = some fb ∧ fb1.handle = fb.handle)) := by
  obtain ⟨s1, fb1, c, h, hf, ha, ht, hb, hw, hh, -⟩ := render_ready s d hr
  refine ⟨s1, fb1, h, (render_ready_keeps s s1 d hr h).1, hf, ha, hw, hh, ?_⟩
  rw [newCalls_append s s1 _ ht]
  rcases hb with ⟨h1, hc, -⟩ | ⟨h1, fb, hfb, hc, hh1⟩
  · left; exact ⟨h1, by rw [hc]; rfl⟩
  · right; exact ⟨h1, by rw [hc]; rfl, fb, hfb, hh1⟩

/-- The two equivalences that follow from `render_syncKinds`. -/
theorem render_decision (s : State) (d : Texture) (hr : Ready s) :
    ∃ s1, render s d = .ok s1 ∧
      (syncKinds (newCalls s s1) = [true] ↔ seenSize s ≠ some (floatSize (sharedSize s))) ∧
      (syncKinds (newCalls s s1) = [false] ↔ seenSize s = some (floatSize (sharedSize s))) ∧
      (seenSize s = some (floatSize (sharedSize s)) →
        s1.framebuffer_.map Framebuffer.handle = s.framebuffer_.map Framebuffer.handle) := by
  obtain ⟨s1, fb1, h, -, hf1, -, -, -, hb⟩ := render_syncKinds s d hr
  refine ⟨s1, h, ?_⟩
  rcases hb with ⟨hne, hk⟩ | ⟨heq, hk, fb, hfb, hh⟩
  · rw [hk]
    exact ⟨⟨fun _ => hne, fun _ => rfl⟩, ⟨fun h1 => by simp at h1, fun h1 => absurd h1 hne⟩,
      fun h1 => absurd h1 hne⟩
  · rw [hk]
    refine ⟨⟨fun h1 => by simp at h1, fun h1 => absurd heq h1⟩, ⟨fun _ => heq, fun _ => rfl⟩,
      fun _ => ?_⟩
    rw [hf1, hfb]
    simp [hh]

theorem syncKinds_frame (a c : Call) (enc cs : List Call) :
    syncKinds (a :: c :: (enc ++ cs)) =
      syncKinds [a] ++ syncKinds [c] ++ syncKinds enc ++ syncKinds cs := by
  have h : a :: c :: (enc ++ cs) = [a] ++ ([c] ++ (enc ++ cs)) := rfl
  rw [h]
  simp only [syncKinds_append, List.append_assoc]

theorem mainLoop_syncKinds (s : State) (f : FrameInput) (d : Texture) (hr : Ready s)
    (hf : f.drawable = some d) (hq : ∀ e ∈ f.events, e.isSize = false) :
    ∃ s1 cs, mainLoop f s = .ok s1 ∧ Ready s1 ∧ s1.trace = s.trace ++ cs ∧
      seenSize s1 = some (floatSize d.getSize) ∧ sharedSize s1 = sharedSize s ∧
      (seenSize s ≠ some (floatSize (sharedSize s)) → syncKinds cs = [true]) := by
  obtain ⟨s1, fb1, c, cs, h1, hr1, hf1, ha1, ht, hcs, hb, -, hdim⟩ :=
    mainLoop_ready s f d hr hf
  obtain ⟨e1, e2⟩ := hdim hq
  refine ⟨s1, _, h1, hr1, ht, by simp [seenSize, attachmentSize, hf1, ha1],
    by simp [sharedSize, e1, e2], fun hne => ?_⟩
  rcases hb with ⟨-, hc⟩ | ⟨heq, -⟩
  · rw [syncKinds_frame, syncKinds_events cs hcs, hc]
    rfl
  · exact absurd heq hne

theorem frames_all_rebuild (fs : List FrameInput) :
    ∀ s : State, Ready s → seenSize s ≠ some (floatSize (sharedSize s)) →
      (∀ g ∈ fs, (∃ d, g.drawable = some d ∧
          floatSize d.getSize ≠ floatSize (sharedSize s)) ∧
        ∀ e ∈ g.events, e.isSize = false) →
      ∃ s1 cs, frames fs s = .ok s1 ∧ s1.trace = s.trace ++ cs ∧
        syncKinds cs = List.replicate fs.length true := by
  induction fs with
  | nil => intro s _ _ _; exact ⟨s, [], rfl, by simp, rfl⟩
  | cons f fs ih =>
    intro s hr hne hall
    obtain ⟨⟨d, hd, hsz⟩, hq⟩ := hall f (List.mem_cons_self f fs)
    obtain ⟨s1, cs1, h1, hr1, ht1, ha1, hs1, hk1⟩ := mainLoop_syncKinds s f d hr hd hq
    have hne1 : seenSize s1 ≠ some (floatSize (sharedSize s1)) := by
      rw [ha1, hs1]
      intro h
      exact hsz (Option.some.inj h)
    obtain ⟨s2, cs2, h2, ht2, hk2⟩ := ih s1 hr1 hne1 (fun g hg => by
      rw [hs1]; exact hall g (List.mem_cons_of_mem f hg))
    refine ⟨s2, cs1 ++ cs2, by simp [frames, h1, h2], ?_, ?_⟩
    · rw [ht2, ht1, List.append_assoc]
    · rw [syncKinds_append, hk1 hne, hk2]
      rfl

/-- A run of passes without resize in which every drawable differs, as a float
size, from the shared dimensions: every pass after the first constructs. -/
theorem frames_after_first_rebuild (s : State) (hr : Ready s) (f : FrameInput)
    (fs : List FrameInput)
    (hall : ∀ g ∈ f :: fs, (∃ d, g.drawable = some d ∧
        floatSize d.getSize ≠ floatSize (sharedSize s)) ∧
      ∀ e ∈ g.events, e.isSize = false) :
    ∃ s1 s2, mainLoop f s = .ok s1 ∧ frames fs s1 = .ok s2 ∧
      syncKinds (newCalls s1 s2) = List.replicate fs.length true := by
  obtain ⟨⟨d, hd, hsz⟩, hq⟩ := hall f (List.mem_cons_self f fs)
  obtain ⟨s1, cs1, h1, hr1, -, ha1, hs1, -⟩ := mainLoop_syncKinds s f d hr hd hq
  have hne1 : seenSize s1 ≠ some (floatSize (sharedSize s1)) := by
    rw [ha1, hs1]
    intro h
    exact hsz (Option.some.inj h)
  obtain ⟨s2, cs2, h2, ht2, hk2⟩ := frames_all_rebuild fs s1 hr1 hne1 (fun g hg => by
    rw [hs1]; exact hall g (List.mem_cons_of_mem f hg))
  exact ⟨s1, s2, h1, h2, by rw [newCalls_append s1 s2 cs2 ht2, hk2]⟩

/-- C10, as stated, fails.  In the state `wideWindow` the cached attachment is
16777216 wide and the shared width is 16777217; the sizes differ, yet `render`
rebinds, because line 341 compares floats and both widths convert to the float
16777216.  And in a run from that state whose drawables are all 16777216x600,
a size other than the shared 16777217x600, the passes after the first rebind
and construct nothing. -/
theorem rebuild_ignores_difference_lost_in_float :
    (Ready wideWindow ∧
      attachmentSize wideWindow ≠ some (sharedSize wideWindow) ∧
      syncKinds (newCalls wideWindow
        (stateOf (render wideWindow (drawable 7 16777217 600)))) = [false]) ∧
    ((drawable 8 16777216 600).getSize ≠ sharedSize wideWindow ∧
      syncKinds (newCalls
        (stateOf (mainLoop (quietFrame (drawable 8 16777216 600)) wideWindow))
        (stateOf (frames [quietFrame (drawable 8 16777216 600),
          quietFrame (drawable 8 16777216 600), quietFrame (drawable 8 16777216 600)]
          wideWindow))) = [false, false]) := by
  decide

/-- C10, amended (the rebuild decision looks at the shared dimensions only,
as floats).  In a ready state and for every drawable, `render` runs to its
end, and its sync step is a framebuffer construction if and only if the size
of the cached color attachment differs from (width_, height_) once both are
converted to float, as line 341 compares them, and a rebind if and only if the
two agree as floats; the size of the drawable plays no part.  When the cached
size and the shared dimensions are below 2^24 = 16777216 in absolute value,
where the conversion is exact, this is: a construction if and only if the
cached size differs from (width_, height_), a rebind if and only if they are
equal.  Consequently, in a run of passes of the main loop in which no resize
is delivered and every drawable has, as floats, a size other than the shared
(width_, height_), which is the case when it differs from them and all are
below 2^24, every pass after the first constructs a framebuffer, and none of
them takes the rebind path. -/
theorem rebuild_decided_by_shared_dimensions (s : State) (hr : Ready s) :
    (∀ d : Texture, ∃ s1, render s d = .ok s1 ∧
      (syncKinds (newCalls s s1) = [true] ↔
        seenSize s ≠ some (floatSize (sharedSize s))) ∧
      (syncKinds (newCalls s s1) = [false] ↔
        seenSize s = some (floatSize (sharedSize s)))) ∧
    ((sharedSize s).Exact → (∃ z, attachmentSize s = some z ∧ z.Exact) →
      ∀ d : Texture, ∃ s1, render s d = .ok s1 ∧
        (syncKinds (newCalls s s1) = [true] ↔ attachmentSize s ≠ some (sharedSize s)) ∧
        (syncKinds (newCalls s s1) = [false] ↔ attachmentSize s = some (sharedSize s))) ∧
    (∀ (f : FrameInput) (fs : List FrameInput),
      (∀ g ∈ f :: fs, (∃ d, g.drawable = some d ∧
          floatSize d.getSize ≠ floatSize (sharedSize s)) ∧
        ∀ e ∈ g.events, e.isSize = false) →
      ∃ s1 s2, mainLoop f s = .ok s1 ∧ frames fs s1 = .ok s2 ∧
        syncKinds (newCalls s1 s2) = List.replicate fs.length true) ∧
    ((sharedSize s).Exact →
      ∀ (f : FrameInput) (fs : List FrameInput),
      (∀ g ∈ f :: fs, (∃ d, g.drawable = some d ∧ d.getSize.Exact ∧
          d.getSize ≠ sharedSize s) ∧
        ∀ e ∈ g.events, e.isSize = false) →
      ∃ s1 s2, mainLoop f s = .ok s1 ∧ frames fs s1 = .ok s2 ∧
        syncKinds (newCalls s1 s2) = List.replicate fs.length true) := by
  refine ⟨fun d => ?_, fun hs hz d => ?_, fun f fs hall =>
    frames_after_first_rebuild s hr f fs hall, fun hs f fs hall => ?_⟩
  · obtain ⟨s1, h, h1, h2, -⟩ := render_decision s d hr
    exact ⟨s1, h, h1, h2⟩
  · obtain ⟨z, hz1, hz2⟩ := hz
    obtain ⟨s1, h, h1, h2, -⟩ := render_decision s d hr
    rw [seenSize_exact s z hz1 hz2, floatSize_exact _ hs, ← hz1] at h1 h2
    exact ⟨s1, h, h1, h2⟩
  · refine frames_after_first_rebuild s hr f fs (fun g hg => ?_)
    obtain ⟨⟨d, hd, he, hne⟩, hq⟩ := hall g hg
    refine ⟨⟨d, hd, ?_⟩, hq⟩
    rw [floatSize_exact _ he, floatSize_exact _ hs]
    exact hne

theorem rebuild_decided_by_shared_dimensions_witness :
    Ready running ∧ (sharedSize running).Exact ∧
    (∃ z, attachmentSize running = some z ∧ z.Exact) ∧
    (∃ s1, render running (drawable 7 1024 768) = .ok s1 ∧
      (syncKinds (newCalls running s1) = [true] ↔
        attachmentSize running ≠ some (sharedSize running)) ∧
      (syncKinds (newCalls running s1) = [false] ↔
        attachmentSize running = some (sharedSize running))) ∧
    (∃ s1 s2, mainLoop (quietFrame (drawable 7 1024 768)) running = .ok s1 ∧
      frames [quietFrame (drawable 8 1024 768), quietFrame (drawable 9 1024 768)] s1 = .ok s2 ∧
      syncKinds (newCalls s1 s2) = List.replicate 2 true) :=
  ⟨by decide, by decide, ⟨⟨800, 600⟩, by decide, by decide⟩,
    (rebuild_decided_by_shared_dimensions running (by decide)).2.1 (by decide)
      ⟨⟨800, 600⟩, by decide, by decide⟩ (drawable 7 1024 768),
    (rebuild_decided_by_shared_dimensions running (by decide)).2.2.2 (by decide)
      (quietFrame (drawable 7 1024 768))
      [quietFrame (drawable 8 1024 768), quietFrame (drawable 9 1024 768)]
      (by decide)⟩

/-- C2, as stated, fails.  In the state `resized` the cached attachment and
the drawable both measure 800x600, yet `render` constructs a framebuffer,
because the shared dimensions are 1024x768.  In the state `running` the
cached attachment measures 800x600 and the drawable 1024x768, yet `render`
only rebinds, because the shared dimensions are still 800x600.  The five
drawables of the test, fed to the sync step with the shared dimensions left at
800x600, construct a framebuffer on the 1st, 4th and 5th calls, not on the
1st, 3rd and 5th.  And in the state `wideWindow`, where the drawable has the
size of the shared dimensions, 16777217x600, and the cached attachment
measures 16777216x600, the sizes differ, yet `render` only rebinds, because
line 341 compares floats and both widths convert to the float 16777216. -/
theorem rebuild_not_decided_by_drawable_size :
    (Ready resized ∧
      attachmentSize resized = some (drawable 7 800 600).getSize ∧
      syncKinds (newCalls resized (stateOf (render resized (drawable 7 800 600)))) = [true]) ∧
    (Ready running ∧
      attachmentSize running ≠ some (drawable 7 1024 768).getSize ∧
      syncKinds (newCalls running (stateOf (render running (drawable 7 1024 768)))) = [false]) ∧
    syncKinds (stateOf (runOps transitionsAlone deviceReady)).trace =
      [true, false, false, true, true] ∧
    (Ready wideWindow ∧
      (drawable 7 16777217 600).getSize = sharedSize wideWindow ∧
      attachmentSize wideWindow ≠ some (drawable 7 16777217 600).getSize ∧
      syncKinds (newCalls wideWindow
        (stateOf (render wideWindow (drawable 7 16777217 600)))) = [false]) := by
  decide

/-- C2, amended.  In a ready state, for a drawable whose size equals the
shared (width_, height_) at the call, `render` runs to its end and its sync
step constructs a new framebuffer if and only if the size of the cached color
attachment differs from the size of the drawable once both are converted to
float, as line 341 compares them; when the two are equal as floats it only
rebinds, and the cached framebuffer is the same object as before.  When both
sizes are below 2^24 = 16777216, where the conversion is exact, this is: it
constructs if and only if the cached size differs from the size of the
drawable, and when the two sizes are equal it only rebinds and keeps the same
object.  Hence for the drawable sizes 800x600, 800x600, 1024x768, 1024x768,
640x480, the first call being the cold-path creation and a resize notification
preceding each change of size, a framebuffer is constructed on the 1st, 3rd
and 5th calls and on no other. -/
theorem rebuild_iff_size_differs_when_dimensions_agree (s : State) (hr : Ready s)
    (d : Texture) (hagree : d.getSize = sharedSize s) :
    (∃ s1, render s d = .ok s1 ∧
      (syncKinds (newCalls s s1) = [true] ↔ seenSize s ≠ some (floatSize d.getSize)) ∧
      (seenSize s = some (floatSize d.getSize) →
        syncKinds (newCalls s s1) = [false] ∧
        s1.framebuffer_.map Framebuffer.handle = s.framebuffer_.map Framebuffer.handle) ∧
      (d.getSize.Exact → (∃ z, attachmentSize s = some z ∧ z.Exact) →
        (syncKinds (newCalls s s1) = [true] ↔ attachmentSize s ≠ some d.getSize) ∧
        (attachmentSize s = some d.getSize →
          syncKinds (newCalls s s1) = [false] ∧
          s1.framebuffer_.map Framebuffer.handle =
            s.framebuffer_.map Framebuffer.handle))) ∧
    (∃ s5, runOps transitionsWithResize deviceReady = .ok s5 ∧
      syncKinds s5.trace = [true, false, true, false, true]) := by
  constructor
  · obtain ⟨s1, h, h1, h2, h3⟩ := render_decision s d hr
    rw [← hagree] at h1 h2 h3
    refine ⟨s1, h, h1, fun heq => ⟨h2.2 heq, h3 heq⟩, fun he hz => ?_⟩
    obtain ⟨z, hz1, hz2⟩ := hz
    rw [seenSize_exact s z hz1 hz2, floatSize_exact _ he, ← hz1] at h1 h2 h3
    exact ⟨h1, fun heq => ⟨h2.2 heq, h3 heq⟩⟩
  · exact ⟨stateOf (runOps transitionsWithResize deviceReady), by rfl, by decide⟩

theorem rebuild_iff_size_differs_when_dimensions_agree_witness :
    Ready running ∧ (drawable 7 800 600).getSize = sharedSize running ∧
    ((∃ s1, render running (drawable 7 800 600) = .ok s1 ∧
      (syncKinds (newCalls running s1) = [true] ↔
        seenSize running ≠ some (floatSize (drawable 7 800 600).getSize)) ∧
      (seenSize running = some (floatSize (drawable 7 800 600).getSize) →
        syncKinds (newCalls running s1) = [false] ∧
        s1.framebuffer_.map Framebuffer.handle =
          running.framebuffer_.map Framebuffer.handle) ∧
      ((drawable 7 800 600).getSize.Exact →
        (∃ z, attachmentSize running = some z ∧ z.Exact) →
        (syncKinds (newCalls running s1) = [true] ↔
          attachmentSize running ≠ some (drawable 7 800 600).getSize) ∧
        (attachmentSize running = some (drawable 7 800 600).getSize →
          syncKinds (newCalls running s1) = [false] ∧
          s1.framebuffer_.map Framebuffer.handle =
            running.framebuffer_.map Framebuffer.handle))) ∧
    (∃ s5, runOps transitionsWithResize deviceReady = .ok s5 ∧
      syncKinds s5.trace = [true, false, true, false, true])) :=
  ⟨by decide, by decide,
    rebuild_iff_size_differs_when_dimensions_agree running (by decide)
      (drawable 7 800 600) (by decide)⟩

/-! ## Start-up -/

/-- C7: the code at a failing input.  When `glfwCreateWindow` returns null,
`initWindow` returns false, and `runTriangle` still enters `initIGL`: the
Vulkan context is created without a window, the GPUs are queried, the device
and the command queue are created, and drawable acquisition is attempted; only
there does the run stop, on a failed assertion.  When `glfwInit` fails and the
later outside calls answer, `runTriangle` goes through `initIGL`,
`createFramebuffer` and `createRenderPipeline` and reaches the main loop,
where it tests the close flag of a null window. -/
theorem startup_ignores_initWindow_result :
    ((initWindow noWindowEnv programStart).1 = false ∧
      faultOf (runTriangle noWindowEnv []) = some Fault.assertFailed ∧
      (stateOf (runTriangle noWindowEnv [])).trace =
        [ Call.glfwInit, Call.glfwCreateWindow 800 600, Call.glfwTerminate,
          Call.createContext false, Call.queryDevices HWDeviceType.DiscreteGpu,
          Call.hwDeviceCreate gpuA 0 0, Call.createCommandQueue,
          Call.createTextureFromNativeDrawable ]) ∧
    ((initWindow noGlfwEnv programStart).1 = false ∧
      faultOf (runTriangle noGlfwEnv []) = some (Fault.undefined Undefined.nullDereference) ∧
      (stateOf (runTriangle noGlfwEnv [])).trace =
        [ Call.glfwInit,
          Call.createContext false, Call.queryDevices HWDeviceType.DiscreteGpu,
          Call.hwDeviceCreate gpuA 0 0, Call.createCommandQueue,
          Call.createTextureFromNativeDrawable,
          Call.createFramebuffer 1 (drawable 100 800 600),
          Call.fromModuleStringInput,
          Call.createRenderPipeline (some 44) none ]) := by
  decide

/-- The part of C8 the code does: with a context and a device that can be
created, `initIGL` creates the device from the first discrete GPU when there
is one, otherwise from the first integrated GPU when there is one. -/
theorem initIGL_prefers_discrete (env : StartupEnv) (s : State) (g : HWDeviceDesc)
    (hc : env.contextCreated = true) (hd : env.deviceCreated = true)
    (hrp : s.renderPass_.colorAttachments.isEmpty = false)
    (hg : env.discreteGpus.head? = some g ∨
      (env.discreteGpus = [] ∧ env.integratedGpus.head? = some g)) :
    ∃ s1 dev, initIGL env s = .ok s1 ∧ s1.device_ = some dev ∧ dev.desc = g ∧
      s1.commandQueue_.isSome = true := by
  unfold initIGL
  rcases hg with hg | ⟨h1, hg⟩
  · have he : env.discreteGpus.isEmpty = false := by
      cases hl : env.discreteGpus with
      | nil => simp [hl] at hg
      | cons a as => rfl
    simp [hc, hd, he, hg, hrp, State.log]
  · simp [hc, hd, h1, hg, hrp, State.log]

/-- C8: the code at a failing input.  With no discrete and no integrated GPU
`initIGL` makes both queries and then evaluates `devices[0]` on the empty
vector, which is an out-of-range read (undefined behaviour), where the spec
asks for an error raised without reading an element. -/
theorem initIGL_reads_empty_device_list :
    noGpuEnv.discreteGpus = [] ∧ noGpuEnv.integratedGpus = [] ∧
    faultOf (initIGL noGpuEnv windowReady) =
      some (Fault.undefined Undefined.vectorIndexOutOfRange) ∧
    newCalls windowReady (stateOf (initIGL noGpuEnv windowReady)) =
      [ Call.createContext true, Call.queryDevices HWDeviceType.DiscreteGpu,
        Call.queryDevices HWDeviceType.IntegratedGpu ] := by
  decide

/-! ## Shutdown -/

theorem mainLoop_ok_ready (s s1 : State) (f : FrameInput) (hr : Ready s)
    (h : mainLoop f s = .ok s1) : Ready s1 := by
  cases hd : f.drawable with
  | none =>
    obtain ⟨dev, -, -, -, hdev, -⟩ := (ready_iff s).1 hr
    simp [mainLoop, getNativeDrawable, hdev, hd] at h
  | some d =>
    obtain ⟨s2, -, -, -, h2, hr2, -⟩ := mainLoop_ready s f d hr hd
    rw [h] at h2
    cases h2
    exact hr2

theorem whileNotClosed_exit (inputs : List FrameInput) :
    ∀ s s1 : State, Ready s → whileNotClosed inputs s = .ok s1 →
      Ready s1 ∧ ∃ w, s1.window_ = some w ∧ w.shouldClose = true := by
  induction inputs with
  | nil =>
    intro s s1 hr h
    unfold whileNotClosed at h
    cases hw : s.window_ with
    | none => simp [hw] at h
    | some w =>
      simp only [hw] at h
      cases hc : w.shouldClose with
      | false => simp [hc] at h
      | true =>
        simp only [hc, if_true, Except.ok.injEq] at h
        subst h
        exact ⟨hr, w, hw, hc⟩
  | cons f fs ih =>
    intro s s1 hr h
    unfold whileNotClosed at h
    cases hw : s.window_ with
    | none => simp [hw] at h
    | some w =>
      simp only [hw] at h
      cases hc : w.shouldClose with
      | true =>
        simp only [hc, if_true, Except.ok.injEq] at h
        subst h
        exact ⟨hr, w, hw, hc⟩
      | false =>
        simp only [hc, Bool.false_eq_true, if_false] at h
        cases hm : mainLoop f s with
        | error e => simp [hm] at h
        | ok s2 =>
          simp only [hm] at h
          exact ih s2 s1 (mainLoop_ok_ready s s2 f hr hm) h

theorem initIGL_ok (env : StartupEnv) (s s1 : State) (h : initIGL env s = .ok s1) :
    s1.device_.isSome = true ∧ s1.commandQueue_.isSome = true := by
  unfold initIGL at h
  simp only [] at h
  repeat' split at h
  all_goals first
    | (simp at h; done)
    | (simp only [Except.ok.injEq] at h
       subst h
       exact ⟨rfl, rfl⟩)

theorem createRenderPipeline_ready (s s1 : State) (hr : Ready s)
    (h : createRenderPipeline s = .ok s1) : Ready s1 := by
  unfold createRenderPipeline at h
  cases hp : s.renderPipelineState_Triangle_ with
  | some p =>
    simp only [hp, Except.ok.injEq] at h
    subst h
    exact hr
  | none =>
    simp only [hp] at h
    cases hf : s.framebuffer_ with
    | none => simp [hf] at h
    | some fb =>
      cases hd : s.device_ with
      | none => simp [hf, hd] at h
      | some dev =>
        simp only [hf, hd] at h
        cases hc : dev.compilesShaders with
        | false => simp [hc] at h
        | true =>
          simp only [hc, Bool.true_eq_false, if_false, Except.ok.injEq] at h
          subst h
          obtain ⟨h1, h2, h3⟩ := hr
          refine ⟨?_, ?_, ?_⟩
          · simpa [State.log] using h1
          · simpa [State.log] using h2
          · simpa [attachmentSize, State.log, hf] using h3

theorem startup_ready (env : StartupEnv) (s0 : State) (h : startup env = .ok s0) :
    Ready s0 := by
  unfold startup at h
  simp only [] at h
  generalize (initWindow env programStart).2 = s1 at h
  cases h2 : initIGL env s1 with
  | error e => simp [h2] at h
  | ok s2 =>
    have hi := initIGL_ok env s1 s2 h2
    simp only [h2] at h
    cases h3 : getNativeDrawable env.firstDrawable s2 with
    | error e => simp [h3] at h
    | ok r =>
      obtain ⟨d, s3⟩ := r
      simp only [h3] at h
      have hq3 : s3.commandQueue_.isSome = true := by
        unfold getNativeDrawable at h3
        cases hd : s2.device_ with
        | none => simp [hd] at h3
        | some dev =>
          cases hres : env.firstDrawable with
          | none => simp [hd, hres] at h3
          | some d1 =>
            simp only [hd, hres, Except.ok.injEq, Prod.mk.injEq] at h3
            rw [← h3.2]
            exact hi.2
      cases h4 : createFramebuffer s3 d with
      | error e => simp [h4] at h
      | ok s4 =>
        simp only [h4] at h
        exact createRenderPipeline_ready s4 s0 (createFramebuffer_ready s3 s4 d hq3 h4).1 h

theorem shutdown_trace (s : State) :
    (shutdown s).trace = s.trace ++
      [ Call.reset Resource.pipeline, Call.reset Resource.framebuffer,
        Call.reset Resource.commandQueue, Call.reset Resource.device,
        Call.glfwDestroyWindow, Call.glfwTerminate ] := by
  simp [shutdown, release, State.log]

/-- C9 (shutdown order).  Let start-up succeed and let the main loop exit,
which it does only on seeing the close flag of the window set.  Then
`runTriangle` runs to its end; at loop exit the pipeline state, framebuffer,
command queue and device are all held; the calls recorded after the loop are
exactly: release of the pipeline state, of the framebuffer, of the command
queue, of the device, destruction of the window, termination of GLFW, in this
order; over the whole run each of the four releases and the window destruction
occurs exactly once, after the single pipeline construction; when the device
is released the other three globals are already null; and in the end all four
are null. -/
theorem shutdown_order (env : StartupEnv) (inputs : List FrameInput) (s0 s1 : State)
    (h0 : startup env = .ok s0) (h1 : whileNotClosed inputs s0 = .ok s1) :
    runTriangle env inputs = .ok (shutdown s1) ∧
    (∃ w, s1.window_ = some w ∧ w.shouldClose = true) ∧
    (s1.renderPipelineState_Triangle_.isSome = true ∧ s1.framebuffer_.isSome = true ∧
      s1.commandQueue_.isSome = true ∧ s1.device_.isSome = true) ∧
    newCalls s1 (shutdown s1) =
      [ Call.reset Resource.pipeline, Call.reset Resource.framebuffer,
        Call.reset Resource.commandQueue, Call.reset Resource.device,
        Call.glfwDestroyWindow, Call.glfwTerminate ] ∧
    (∃ cf df, lifecycle (shutdown s1).trace =
      [ Call.createRenderPipeline cf df,
        Call.reset Resource.pipeline, Call.reset Resource.framebuffer,
        Call.reset Resource.commandQueue, Call.reset Resource.device,
        Call.glfwDestroyWindow ]) ∧
    ((release Resource.commandQueue (release Resource.framebuffer
        (release Resource.pipeline s1))).renderPipelineState_Triangle_ = none ∧
      (release Resource.commandQueue (release Resource.framebuffer
        (release Resource.pipeline s1))).framebuffer_ = none ∧
      (release Resource.commandQueue (release Resource.framebuffer
        (release Resource.pipeline s1))).commandQueue_ = none ∧
      (release Resource.commandQueue (release Resource.framebuffer
        (release Resource.pipeline s1))).device_ = s1.device_) ∧
    ((shutdown s1).renderPipelineState_Triangle_ = none ∧
      (shutdown s1).framebuffer_ = none ∧ (shutdown s1).commandQueue_ = none ∧
      (shutdown s1).device_ = none) := by
  obtain ⟨hr1, hclose⟩ := whileNotClosed_exit inputs s0 s1 (startup_ready env s0 h0) h1
  obtain ⟨p, cf, df, hp, hl⟩ := startup_lifecycle env s0 h0
  have hk := whileNotClosed_kept inputs s0
  rw [h1] at hk
  obtain ⟨dev, q, fb, att, hd, hq, hf, -⟩ := (ready_iff s1).1 hr1
  refine ⟨by simp [runTriangle, h0, h1], hclose, ⟨?_, ?_, ?_, ?_⟩, ?_, ⟨cf, df, ?_⟩,
    ⟨rfl, rfl, rfl, rfl⟩, ⟨rfl, rfl, rfl, rfl⟩⟩
  · have := hk.1
    simp only [stateOf] at this
    rw [this, hp]; rfl
  · rw [hf]; rfl
  · rw [hq]; rfl
  · rw [hd]; rfl
  · exact newCalls_append s1 (shutdown s1) _ (shutdown_trace s1)
  · have := hk.2
    simp only [stateOf] at this
    rw [shutdown_trace, lifecycle_append, this, hl]
    rfl

theorem shutdown_order_witness :
    startup goodEnv = .ok running ∧ whileNotClosed closingRun running = .ok atExit ∧
    (runTriangle goodEnv closingRun = .ok (shutdown atExit) ∧
    (∃ w, atExit.window_ = some w ∧ w.shouldClose = true) ∧
    (atExit.renderPipelineState_Triangle_.isSome = true ∧ atExit.framebuffer_.isSome = true ∧
      atExit.commandQueue_.isSome = true ∧ atExit.device_.isSome = true) ∧
    newCalls atExit (shutdown atExit) =
      [ Call.reset Resource.pipeline, Call.reset Resource.framebuffer,
        Call.reset Resource.commandQueue, Call.reset Resource.device,
        Call.glfwDestroyWindow, Call.glfwTerminate ] ∧
    (∃ cf df, lifecycle (shutdown atExit).trace =
      [ Call.createRenderPipeline cf df,
        Call.reset Resource.pipeline, Call.reset Resource.framebuffer,
        Call.reset Resource.commandQueue, Call.reset Resource.device,
        Call.glfwDestroyWindow ]) ∧
    ((release Resource.commandQueue (release Resource.framebuffer
        (release Resource.pipeline atExit))).renderPipelineState_Triangle_ = none ∧
      (release Resource.commandQueue (release Resource.framebuffer
        (release Resource.pipeline atExit))).framebuffer_ = none ∧
      (release Resource.commandQueue (release Resource.framebuffer
        (release Resource.pipeline atExit))).commandQueue_ = none ∧
      (release Resource.commandQueue (release Resource.framebuffer
        (release Resource.pipeline atExit))).device_ = atExit.device_) ∧
    ((shutdown atExit).renderPipelineState_Triangle_ = none ∧
      (shutdown atExit).framebuffer_ = none ∧ (shutdown atExit).commandQueue_ = none ∧
      (shutdown atExit).device_ = none)) :=
  ⟨by rfl, by rfl, shutdown_order goodEnv closingRun running atExit (by rfl) (by rfl)⟩

end PG
